/-
Verification of the store's fulfillment and notification handlers.

Shallow embedding of three JavaScript source files:
  * api/notify.js        — Telegram broadcast handler (escapeHtml, template selection, batch loop)
  * api/send_email.js    — Resend email dispatcher (sendEmail)
  * provision handlers   — two variants of the Pterodactyl order-fulfillment endpoint
    (variant A: settings read from the database, config linked via pterodactyl_configs,
     guarded allocation extraction; variant B: credentials from the environment,
     config embedded on the product row, unguarded allocation indexing).

Strings are modelled as `List Char`.  External calls (database, panel REST API,
email provider, Telegram) are modelled as oracle inputs: each awaited call either
returns a response value or throws (`JsTry`), and thrown errors propagate to the
handler's surrounding try/catch, which produces the 500 "Internal Server Error"
response with the error message attached.  Each handler returns its HTTP response
together with a record of the outbound effects it issued (panel user search,
panel user creation, panel server creation, database update, email, chat message).
-/
import Mathlib

namespace Skull

/-- Strings of the JavaScript program, modelled as lists of characters. -/
abbrev Str := List Char

/-- JS truthiness of an optional string (absent or empty string is falsy). -/
def strTruthy : Option Str → Bool
  | none => false
  | some s => !s.isEmpty

/-- JS or-else on an optional string: a falsy left operand selects the right one. -/
def jsOrStr : Option Str → Str → Str
  | none, b => b
  | some s, b => if s.isEmpty then b else s

/-- JS or-else on two plain strings (empty string is falsy). -/
def orElseStr (a b : Str) : Str := if a.isEmpty then b else a

/-- The local part of an email address: everything before the first at-sign,
as the split-at-sign expression of the source computes it. -/
def emailLocal (e : Str) : Str := e.takeWhile (fun c => c ≠ '@')

/-- JS `String.replace` with a global single-character pattern: every occurrence
of the character `c` is replaced by the string `rep`. -/
def replaceAllChar (c : Char) (rep : Str) : Str → Str
  | [] => []
  | x :: xs => (if x = c then rep else [x]) ++ replaceAllChar c rep xs

/-- The `escapeHtml` helper of api/notify.js (string input case): falsy input
gives the empty string, otherwise the five chained global replacements
`& → &amp;`, `< → &lt;`, `> → &gt;`, `" → &quot;`, `' → &#039;`. -/
def escapeHtml (text : Str) : Str :=
  if text.isEmpty then []
  else
    replaceAllChar '\'' ("&#039;".toList)
      (replaceAllChar '"' ("&quot;".toList)
        (replaceAllChar '>' ("&gt;".toList)
          (replaceAllChar '<' ("&lt;".toList)
            (replaceAllChar '&' ("&amp;".toList) text))))

/-- Dynamic JavaScript values that order fields can hold. -/
inductive JsValue where
  | vNull
  | vUndefined
  | vNum (n : Int)
  | vStr (s : Str)
  | vBool (b : Bool)
deriving DecidableEq

/-- JS falsiness of a dynamic value. -/
def jsFalsy : JsValue → Bool
  | .vNull => true
  | .vUndefined => true
  | .vNum n => n = 0
  | .vStr s => s.isEmpty
  | .vBool b => !b

/-- JS `toString()` of a dynamic value. -/
def jsToString : JsValue → Str
  | .vNull => ("null".toList)
  | .vUndefined => ("undefined".toList)
  | .vNum n => (toString n).toList
  | .vStr s => s
  | .vBool b => (if b then "true" else "false").toList

/-- JS or-else on two dynamic values. -/
def jsOrJs (a b : JsValue) : JsValue := if jsFalsy a then b else a

/-- The `escapeHtml` helper applied to a dynamic value, as the broadcast handler
does for every interpolated order field: falsy input returns the empty string,
otherwise `.toString()` is escaped. -/
def escapeHtmlJs (v : JsValue) : Str :=
  if jsFalsy v then [] else escapeHtml (jsToString v)

/-- Result of one awaited JS call: either a value or a thrown error whose
message reaches the surrounding catch block. -/
inductive JsTry (α : Type) where
  | ok (val : α)
  | thrown (message : Str)
deriving DecidableEq

/- ### Email dispatcher (api/send_email.js) -/

/-- Behaviour of one `resend.emails.send` call: the awaited call either throws
(transport/unexpected failure) or returns a `{data, error}` pair. -/
inductive ResendOutcome where
  | thrown (message : Str)
  | returns (data : Option Str) (error : Option Str)
deriving DecidableEq

/-- The error slot of the dispatcher's structured result: either the provider's
reported error object or the caught exception's message. -/
inductive EmailError where
  | provider (e : Str)
  | exn (message : Str)
deriving DecidableEq

/-- The structured result `{success, data?, error?}` of `sendEmail`. -/
structure EmailResult where
  success : Bool
  data : Option Str
  error : Option EmailError
deriving DecidableEq

/-- The sendEmail dispatcher of api/send_email.js: provider-reported error gives
`{success:false, error}`, a thrown exception is caught and gives
`{success:false, error: message}`, otherwise `{success:true, data}`. -/
def sendEmail (call : ResendOutcome) : EmailResult :=
  match call with
  | .thrown msg => { success := false, data := none, error := some (.exn msg) }
  | .returns d e =>
    match e with
    | some err => { success := false, data := none, error := some (.provider err) }
    | none => { success := true, data := d, error := none }

/- ### Broadcast handler (api/notify.js) -/

/-- One record of the broadcast handler's `orders` payload.  Interpolated
fields are dynamic values (they pass through `escapeHtml`); the two fields the
template branch compares with `===` against string literals are strings. -/
structure OrderN where
  id : JsValue
  username : JsValue
  product_name : JsValue
  payment_method : JsValue
  contact_email : JsValue
  status : Str
  product_category : Str
  pterodactyl_server_id : JsValue
  payment_proof : JsValue
deriving DecidableEq

/-- The three notification templates of the broadcast handler. -/
inductive Template where
  | newOrder
  | provisioned
  | generic
deriving DecidableEq

/-- The broadcast handler's template branch (notify.js lines 76-109):
`waiting_confirmation` gives the new-order template; `done` on a
`panel_pterodactyl` product gives the provisioned template; anything else the
generic status-update template. -/
def notifyTemplate (status category : Str) : Template :=
  if status = ("waiting_confirmation".toList) then .newOrder
  else if status = ("done".toList) ∧ category = ("panel_pterodactyl".toList) then .provisioned
  else .generic

/-- The status display: underscores become spaces, the result is uppercased
and escaped. -/
def statusDisplay (s : Str) : Str :=
  escapeHtml ((replaceAllChar '_' (" ".toList) s).map Char.toUpper)

/-- The new-order caption (status `waiting_confirmation`). -/
def newOrderCaption (o : OrderN) : Str :=
  ("\n🛒 <b>Pesanan Baru</b>\n\n🆔 Order ID: <code>".toList) ++ escapeHtmlJs o.id ++
  ("</code>\n👤 User: <b>".toList) ++ escapeHtmlJs o.username ++
  ("</b>\n📦 Produk: <b>".toList) ++ escapeHtmlJs o.product_name ++
  ("</b>\n📧 Email: <b>".toList) ++ escapeHtmlJs (jsOrJs o.contact_email (.vStr ("-".toList))) ++
  ("</b>\n💳 Metode: <b>".toList) ++ escapeHtmlJs o.payment_method ++
  ("</b>\n📄 Status: <b>Pending Konfirmasi</b>\n        ".toList)

/-- The provisioned caption (status `done` on a Pterodactyl product); includes
the escaped server id and the escaped panel URL. -/
def provisionedCaption (url : Str) (o : OrderN) : Str :=
  ("\n✅ <b>Pesanan Selesai (Pterodactyl)</b>\n\n🆔 Order ID: <code>".toList) ++ escapeHtmlJs o.id ++
  ("</code>\n👤 User: <b>".toList) ++ escapeHtmlJs o.username ++
  ("</b>\n📦 Produk: <b>".toList) ++ escapeHtmlJs o.product_name ++
  ("</b>\n📧 Email: <b>".toList) ++ escapeHtmlJs (jsOrJs o.contact_email (.vStr ("-".toList))) ++
  ("</b>\n📄 Status: <b>".toList) ++ statusDisplay o.status ++
  ("</b>\n⚙️ Server Pterodactyl ID: <code>".toList) ++
    escapeHtmlJs (jsOrJs o.pterodactyl_server_id (.vStr ("-".toList))) ++
  ("</code>\n🔗 Panel URL: ".toList) ++ escapeHtml url ++
  ("\n        ".toList)

/-- The generic status-update caption. -/
def genericCaption (o : OrderN) : Str :=
  ("\n📢 <b>Update Pesanan</b>\n\n🆔 Order ID: <code>".toList) ++ escapeHtmlJs o.id ++
  ("</code>\n👤 User: <b>".toList) ++ escapeHtmlJs o.username ++
  ("</b>\n📦 Produk: <b>".toList) ++ escapeHtmlJs o.product_name ++
  ("</b>\n📧 Email: <b>".toList) ++ escapeHtmlJs (jsOrJs o.contact_email (.vStr ("-".toList))) ++
  ("</b>\n📄 Status: <b>".toList) ++ statusDisplay o.status ++
  ("</b>\n        ".toList)

/-- The caption built for one record: the template selected by
`notifyTemplate` on `(status, product_category)`, rendered over the record's
escaped fields and the shared panel URL. -/
def captionFor (url : Str) (o : OrderN) : Str :=
  match notifyTemplate o.status o.product_category with
  | .newOrder => newOrderCaption o
  | .provisioned => provisionedCaption url o
  | .generic => genericCaption o

/-- The parsed body of one Telegram API response (only its `ok` flag is read). -/
structure TgResult where
  ok : Bool
deriving DecidableEq

/-- One outbound Telegram call of the broadcast handler: a photo message with
caption when the record has a payment proof, a plain text message otherwise. -/
inductive ChatCall where
  | photo (chat_id : Str) (photoRef : JsValue) (caption : Str)
  | textMsg (chat_id : Str) (text : Str)
deriving DecidableEq

/-- Response bodies the handlers produce. -/
inductive RespBody where
  | okMsg (success : Bool) (message : Str)
  | err (error : Str)
  | errDetails (error details : Str)
deriving DecidableEq

/-- An HTTP response: status code plus JSON body. -/
structure Resp where
  status : Nat
  body : RespBody
deriving DecidableEq

/-- Whether a response reports `success: true`. -/
def Resp.isSuccess (r : Resp) : Bool :=
  match r.body with
  | .okMsg s _ => s
  | _ => false

/-- The outbound call issued for one record: a photo message with the caption
when the record carries a payment proof, a plain text message otherwise. -/
def mkChatCall (chatId url : Str) (o : OrderN) : ChatCall :=
  if jsFalsy o.payment_proof then .textMsg chatId (captionFor url o)
  else .photo chatId o.payment_proof (captionFor url o)

/-- The broadcast handler's per-record loop (notify.js lines 50-142):
each record gets one outbound call; a response whose body has `ok: false` is
only logged and the loop continues; a thrown transport error propagates to the
outer catch, which answers 500 with the error message.  `behav i` is the
behaviour of the `i`-th outbound call; the second component of the result is
the list of calls issued. -/
def notifyLoop (chatId url : Str) (behav : Nat → JsTry TgResult) :
    Nat → List ChatCall → List OrderN → Resp × List ChatCall
  | _, acc, [] => (⟨200, .okMsg true ("Notifications sent.".toList)⟩, acc.reverse)
  | i, acc, o :: rest =>
    match behav i with
    | .thrown m =>
      (⟨500, .errDetails ("Internal Server Error".toList) m⟩,
        (mkChatCall chatId url o :: acc).reverse)
    | .ok _ => notifyLoop chatId url behav (i + 1) (mkChatCall chatId url o :: acc) rest

/-- Environment and settings inputs of the broadcast handler. -/
structure NotifyEnv where
  botToken : Option Str
  chatIdEnv : Option Str
  /-- The panel URL column of the settings row fetch (absent if no row). -/
  settingsUrl : Option Str
  /-- The error code of a failed settings fetch (only logged). -/
  settingsErrCode : Option Str
deriving DecidableEq

/-- The broadcast handler (api/notify.js): method guard, payload validation,
credential check, shared panel-URL resolution, then the per-record loop.
The original invalid-payload message quotes the word orders. -/
def notifyHandler (method : Str) (orders : Option (List OrderN)) (env : NotifyEnv)
    (behav : Nat → JsTry TgResult) : Resp × List ChatCall :=
  if method ≠ ("POST".toList) then (⟨405, .err ("Method not allowed".toList)⟩, [])
  else
    match orders with
    | none => (⟨400, .err ("Invalid payload: orders array is required.".toList)⟩, [])
    | some os =>
      if strTruthy env.botToken && strTruthy env.chatIdEnv then
        notifyLoop (env.chatIdEnv.getD []) (jsOrStr env.settingsUrl ("-".toList)) behav 0 [] os
      else (⟨500, .err ("Telegram bot credentials not configured.".toList)⟩, [])

/- ### Shared shapes of the provisioning handlers -/

/-- The settings row `(pterodactyl_api_key, pterodactyl_panel_url)`. -/
structure SettingsRow where
  pterodactyl_api_key : Str
  pterodactyl_panel_url : Str
deriving DecidableEq

/-- The `attributes` object of a panel user (only its id is read). -/
structure UserAttrs where
  id : Nat
deriving DecidableEq

/-- One element of the panel user-search `data` array. -/
structure UserEntry where
  attributes : UserAttrs
deriving DecidableEq

/-- The `attributes` object of one network allocation. -/
structure Alloc where
  ip : Str
  port : Str
deriving DecidableEq

/-- One element of `relationships.allocations.data`. -/
structure AllocEntry where
  attributes : Alloc
deriving DecidableEq

/-- The `attributes` object of a created panel server. -/
structure ServerAttrs where
  uuid : Str
  name : Str
  /-- The nested allocations data array of the response. -/
  allocations : List AllocEntry
deriving DecidableEq

/-- The payload of the panel user-creation call. -/
structure NewUserPayload where
  email : Str
  username : Str
  first_name : Str
  last_name : Str
  password : Str
deriving DecidableEq

/-- The `limits` block of the server-creation payload.  The field the source
calls `io` is named `io_limit` here. -/
structure ServerLimits where
  memory : Int
  swap : Int
  disk : Int
  io_limit : Int
  cpu : Int
deriving DecidableEq

/-- The update written to the order row after successful provisioning. -/
structure OrderUpdate where
  status : Str
  pterodactyl_server_id : Str
deriving DecidableEq

/-- One dispatched email (from/sender identity is fixed in the dispatcher). -/
structure EmailMsg where
  «to» : Str
  subject : Str
  html : Str
deriving DecidableEq

/-- One direct Telegram text message sent by a fulfillment handler. -/
structure ChatMsg where
  chat_id : Str
  text : Str
deriving DecidableEq

/- ### Fulfillment handler, variant A (database-stored settings, linked config) -/

/-- The linked `pterodactyl_configs` row.  The resource column the source calls
`io` is named `io_limit` here. -/
structure PteroConfig where
  egg_id : Int
  nest_id : Int
  location_id : Int
  memory : Int
  cpu : Int
  disk : Int
  swap : Int
  io_limit : Int
deriving DecidableEq

/-- The product join of variant A: name, category, and the linked config. -/
structure ProductA where
  name : Str
  category : Str
  pterodactyl_configs : Option PteroConfig
deriving DecidableEq

/-- The loaded order row of variant A.  Empty strings model absent/null string
fields (JS falsiness). -/
structure OrderA where
  id : Str
  user_id : Str
  product_id : Str
  contact_email : Str
  username : Str
  status : Str
  pterodactyl_server_id : Str
  products : ProductA
deriving DecidableEq

/-- Parsed body and `ok` flag of the panel user-search response (variant A). -/
structure SearchRespA where
  ok : Bool
  data : Option (List UserEntry)
deriving DecidableEq

/-- Parsed body of the user-creation response (variant A). -/
structure CreateUserBody where
  attributes : Option UserAttrs
deriving DecidableEq

/-- HTTP ok flag and parsed body of the user-creation response (variant A). -/
structure CreateUserRespA where
  ok : Bool
  body : Option CreateUserBody
deriving DecidableEq

/-- Parsed body of the server-creation response (variant A). -/
structure CreateServerBody where
  attributes : Option ServerAttrs
deriving DecidableEq

/-- HTTP ok flag and parsed body of the server-creation response (variant A). -/
structure CreateServerRespA where
  ok : Bool
  body : Option CreateServerBody
deriving DecidableEq

/-- The server-creation payload of variant A. -/
structure ServerPayloadA where
  name : Str
  user : Nat
  egg : Int
  nest : Int
  docker_image : Str
  limits : ServerLimits
  deploy_locations : List Int
  dedicated_ip : Bool
  port_range : List Int
  start_on_completion : Bool
  external_id : Str
deriving DecidableEq

/-- The outbound effects of one variant-A run. -/
structure EffectsA where
  /-- The email the panel user-search was issued for. -/
  userSearch : Option Str := none
  createUserReq : Option NewUserPayload := none
  createServerReq : Option ServerPayloadA := none
  dbUpdate : Option OrderUpdate := none
  email : Option EmailMsg := none
  chat : Option ChatMsg := none
deriving DecidableEq

/-- All external inputs of one variant-A run: database reads, the behaviour of
every outbound call, the generated password, and the chat credentials. -/
structure WorldA where
  settingsError : Bool
  settings : Option SettingsRow
  orderError : Bool
  order : Option OrderA
  searchResp : JsTry SearchRespA
  createUserResp : JsTry CreateUserRespA
  /-- The value of `Math.random().toString(36).slice(-10)`. -/
  password : Str
  createServerResp : JsTry CreateServerRespA
  updateError : Bool
  emailOutcome : ResendOutcome
  botToken : Option Str
  chatIdEnv : Option Str
  chatResp : JsTry Unit
deriving DecidableEq

/-- The generic catch-all response of the provisioning handlers. -/
def internalError (m : Str) : Resp := ⟨500, .errDetails ("Internal Server Error".toList) m⟩

/-- Step 2 of variant A: find or create the panel user; gives either an early
error response or the panel user id, together with the effects so far. -/
def pteroUserA (email uname : Str) (w : WorldA) : (Resp ⊕ Nat) × EffectsA :=
  let eff0 : EffectsA := { userSearch := some email }
  match w.searchResp with
  | .thrown m => (.inl (internalError m), eff0)
  | .ok sr =>
    match sr.data with
    | some (u :: _) => (.inr u.attributes.id, eff0)
    | _ =>
      let payload : NewUserPayload :=
        { email := email, username := uname, first_name := uname,
          last_name := ("User".toList), password := w.password }
      let eff1 := { eff0 with createUserReq := some payload }
      match w.createUserResp with
      | .thrown m => (.inl (internalError m), eff1)
      | .ok cr =>
        match cr.body with
        | none => (.inl ⟨500, .err ("Failed to create Pterodactyl user.".toList)⟩, eff1)
        | some b =>
          match b.attributes with
          | none => (.inl ⟨500, .err ("Failed to create Pterodactyl user.".toList)⟩, eff1)
          | some attrs =>
            if cr.ok then (.inr attrs.id, eff1)
            else (.inl ⟨500, .err ("Failed to create Pterodactyl user.".toList)⟩, eff1)

/-- Allocation extraction of variant A (lines 229-232): the first allocation's
ip and port when present, the placeholder otherwise. -/
def extractAllocA (allocs : List AllocEntry) : Str × Str :=
  match allocs.head? with
  | some entry => (entry.attributes.ip, entry.attributes.port)
  | none => (("N/A".toList), ("N/A".toList))

/-- The completion email body of variant A (lines 253-267). -/
def emailHtmlA (panelUrl greeting productName orderId userEmail serverName ip port : Str) : Str :=
  ("\n      <p>Halo ".toList) ++ greeting ++
  (",</p>\n      <p>Pesanan Anda untuk produk <b>".toList) ++ productName ++
  ("</b> (Order ID: <code>".toList) ++ orderId ++
  ("</code>) telah selesai diproses.</p>\n      <p>Detail akses panel Pterodactyl Anda:</p>\n      <ul>\n        <li><b>URL Panel:</b> <a href=\"".toList) ++ panelUrl ++
  ("\">".toList) ++ panelUrl ++
  ("</a></li>\n        <li><b>Username:</b> ".toList) ++ userEmail ++
  ("</li>\n        <li><b>Password:</b> Jika ini adalah akun baru, Anda akan menerima email terpisah dari Pterodactyl untuk mengatur password. Jika Anda sudah memiliki akun, gunakan password yang sudah ada.</li>\n        <li><b>Nama Server:</b> ".toList) ++ serverName ++
  ("</li>\n        <li><b>IP Server:</b> <code>".toList) ++ ip ++ (":".toList) ++ port ++
  ("</code></li>\n      </ul>\n      <p>Silakan login ke panel Pterodactyl untuk mengelola server Anda.</p>\n      <p>Terima kasih telah berbelanja di STORESKULL!</p>\n      <p>Hormat kami,<br>Tim STORESKULL</p>\n    ".toList)

/-- The admin chat caption of the fulfillment handlers (lines 277-287). -/
def chatCaptionProvision (orderId userDisplay productName email serverId panelUrl : Str) : Str :=
  ("\n        ✅ <b>Pesanan Selesai Otomatis</b>\n\n        🆔 Order ID: <code>".toList) ++ orderId ++
  ("</code>\n        👤 User: <b>".toList) ++ userDisplay ++
  ("</b>\n        📦 Produk: <b>".toList) ++ productName ++
  ("</b>\n        📧 Email: <b>".toList) ++ email ++
  ("</b>\n        📄 Status: <b>DONE (Auto-Provisioned)</b>\n        ⚙️ Server Pterodactyl ID: <code>".toList) ++ serverId ++
  ("</code>\n        🔗 Panel URL: ".toList) ++ panelUrl ++
  ("\n      ".toList)

/-- Steps 4-6 of variant A: database update (failure only logged), completion
email, optional admin chat message, then the success response. -/
def finishA (st : SettingsRow) (o : OrderA) (w : WorldA) (attrs : ServerAttrs)
    (eff : EffectsA) : Resp × EffectsA :=
  let serverId := attrs.uuid
  let ipPort := extractAllocA attrs.allocations
  let eff3 := { eff with dbUpdate := some { status := ("done".toList), pterodactyl_server_id := serverId } }
  let subject := ("Pesanan Anda Selesai: ".toList) ++ o.products.name ++ (" - #".toList) ++ o.id
  let html := emailHtmlA st.pterodactyl_panel_url (orElseStr o.username ("Pelanggan".toList))
      o.products.name o.id o.contact_email attrs.name ipPort.1 ipPort.2
  let eff4 := { eff3 with email := some { «to» := o.contact_email, subject := subject, html := html } }
  if strTruthy w.botToken && strTruthy w.chatIdEnv then
    let caption := chatCaptionProvision o.id (orElseStr o.username o.contact_email)
        o.products.name o.contact_email serverId st.pterodactyl_panel_url
    let eff5 := { eff4 with chat := some { chat_id := w.chatIdEnv.getD [], text := caption } }
    match w.chatResp with
    | .thrown m => (internalError m, eff5)
    | .ok _ => (⟨200, .okMsg true ("Pterodactyl server provisioned and order completed.".toList)⟩, eff5)
  else (⟨200, .okMsg true ("Pterodactyl server provisioned and order completed.".toList)⟩, eff4)

/-- Step 3 of variant A: build and issue the server-creation call, then hand
over to `finishA`. -/
def serverStageA (st : SettingsRow) (o : OrderA) (cfg : PteroConfig) (w : WorldA)
    (userId : Nat) (eff : EffectsA) : Resp × EffectsA :=
  let uname := orElseStr o.username (emailLocal o.contact_email)
  let serverName := ("Server ".toList) ++ o.products.name ++ (" - ".toList) ++ uname ++
    (" - ".toList) ++ o.id
  let payload : ServerPayloadA :=
    { name := serverName, user := userId, egg := cfg.egg_id, nest := cfg.nest_id,
      docker_image := ("ghcr.io/pterodactyl/yolks:java".toList),
      limits := { memory := cfg.memory, swap := cfg.swap, disk := cfg.disk,
                  io_limit := cfg.io_limit, cpu := cfg.cpu },
      deploy_locations := [cfg.location_id], dedicated_ip := false, port_range := [],
      start_on_completion := true, external_id := ("order-".toList) ++ o.id }
  let eff2 := { eff with createServerReq := some payload }
  match w.createServerResp with
  | .thrown m => (internalError m, eff2)
  | .ok sresp =>
    match sresp.body with
    | none => (⟨500, .err ("Failed to create Pterodactyl server.".toList)⟩, eff2)
    | some b =>
      match b.attributes with
      | none => (⟨500, .err ("Failed to create Pterodactyl server.".toList)⟩, eff2)
      | some attrs =>
        if sresp.ok then finishA st o w attrs eff2
        else (⟨500, .err ("Failed to create Pterodactyl server.".toList)⟩, eff2)

/-- Steps 2-6 of variant A, entered after all guards passed. -/
def provisionA (st : SettingsRow) (o : OrderA) (cfg : PteroConfig) (w : WorldA) : Resp × EffectsA :=
  let uname := orElseStr o.username (emailLocal o.contact_email)
  match pteroUserA o.contact_email uname w with
  | (.inl r, eff) => (r, eff)
  | (.inr userId, eff) => serverStageA st o cfg w userId eff

/-- The guard chain of variant A (method, order id, credentials, order load,
category, config link, already-provisioned); every early exit responds with
empty effects, and a passing run carries the settings row, order and config
into provisioning. -/
def handlerGuardsA (method : Str) (order_id : Option Str) (w : WorldA) :
    Resp ⊕ (SettingsRow × OrderA × PteroConfig) :=
  if method ≠ ("POST".toList) then .inl ⟨405, .err ("Method not allowed".toList)⟩
  else if !strTruthy order_id then .inl ⟨400, .err ("Order ID is required".toList)⟩
  else
    match w.settings with
    | none => .inl ⟨500, .err ("Pterodactyl API credentials not configured by admin.".toList)⟩
    | some st =>
      if w.settingsError || st.pterodactyl_api_key.isEmpty || st.pterodactyl_panel_url.isEmpty then
        .inl ⟨500, .err ("Pterodactyl API credentials not configured by admin.".toList)⟩
      else
        match w.order with
        | none => .inl ⟨404, .err ("Order not found.".toList)⟩
        | some o =>
          if w.orderError then .inl ⟨404, .err ("Order not found.".toList)⟩
          else if o.products.category ≠ ("panel_pterodactyl".toList) then
            .inl ⟨400, .err ("Product is not a Pterodactyl panel type.".toList)⟩
          else
            match o.products.pterodactyl_configs with
            | none => .inl ⟨500, .err ("Pterodactyl configuration not linked to product. Please check product settings.".toList)⟩
            | some cfg =>
              if !o.pterodactyl_server_id.isEmpty then
                .inl ⟨200, .okMsg true ("Server already provisioned for this order.".toList)⟩
              else .inr (st, o, cfg)

/-- The variant-A fulfillment handler (part_000 lines 49-306): the guard chain
of `handlerGuardsA`, then provisioning. -/
def handlerA (method : Str) (order_id : Option Str) (w : WorldA) : Resp × EffectsA :=
  match handlerGuardsA method order_id w with
  | .inl r => (r, {})
  | .inr (st, o, cfg) => provisionA st o cfg w

/- ### Fulfillment handler, variant B (environment credentials, embedded config, unguarded indexing) -/

/-- The product row of variant B with the panel config embedded.  The resource
column the source calls `io` is named `io_limit` here; empty strings model
null `startup_script` / `server_name_prefix`. -/
structure ProductB where
  name : Str
  category : Str
  egg_id : Int
  nest_id : Int
  location_id : Int
  memory : Int
  cpu : Int
  disk : Int
  swap : Int
  io_limit : Int
  databases : Int
  allocations : Int
  backups : Int
  startup_script : Str
  server_name_prefix : Str
deriving DecidableEq

/-- The loaded order row of variant B. -/
structure OrderB where
  id : Str
  user_id : Str
  product_id : Str
  contact_email : Str
  username : Str
  status : Str
  pterodactyl_server_id : Str
  products : ProductB
deriving DecidableEq

/-- Variant B destructures `{data, error}` from the parsed JSON body of the
user-search call; `data` is then treated as an object whose own `data` field
must be a non-empty array. -/
structure SearchObjB where
  data : Option (List UserEntry)
deriving DecidableEq

/-- The destructured `{data, error}` body of the user-search call (variant B). -/
structure SearchBodyB where
  data : Option SearchObjB
  error : Option Str
deriving DecidableEq

/-- The `data` object destructured from the user-creation body (variant B). -/
structure UserObjB where
  attributes : Option UserAttrs
deriving DecidableEq

/-- The destructured `{data, error}` body of the user-creation call (variant B). -/
structure UserBodyB where
  data : Option UserObjB
  error : Option Str
deriving DecidableEq

/-- The `data` object destructured from the server-creation body (variant B). -/
structure ServerObjB where
  attributes : Option ServerAttrs
deriving DecidableEq

/-- The destructured `{data, error}` body of the server-creation call (variant B). -/
structure ServerBodyB where
  data : Option ServerObjB
  error : Option Str
deriving DecidableEq

/-- The `feature_limits` block of variant B's server-creation payload. -/
structure FeatureLimits where
  databases : Int
  allocations : Int
  backups : Int
deriving DecidableEq

/-- The server-creation payload of variant B. -/
structure ServerPayloadB where
  name : Str
  user : Nat
  egg : Int
  nest : Int
  docker_image : Str
  startup : Str
  limits : ServerLimits
  feature_limits : FeatureLimits
  deploy_locations : List Int
  dedicated_ip : Bool
  port_range : List Int
  start_on_completion : Bool
  external_id : Str
deriving DecidableEq

/-- The outbound effects of one variant-B run. -/
structure EffectsB where
  userSearch : Option Str := none
  createUserReq : Option NewUserPayload := none
  createServerReq : Option ServerPayloadB := none
  dbUpdate : Option OrderUpdate := none
  email : Option EmailMsg := none
  chat : Option ChatMsg := none
deriving DecidableEq

/-- All external inputs of one variant-B run. -/
structure WorldB where
  /-- The panel API key environment variable. -/
  apiKey : Option Str
  /-- The panel URL environment variable. -/
  panelUrl : Option Str
  orderError : Bool
  order : Option OrderB
  searchResp : JsTry SearchBodyB
  createUserResp : JsTry UserBodyB
  password : Str
  createServerResp : JsTry ServerBodyB
  updateError : Bool
  emailOutcome : ResendOutcome
  botToken : Option Str
  chatIdEnv : Option Str
  chatResp : JsTry Unit
deriving DecidableEq

/-- The default startup command of variant B's server payload. -/
def defaultStartup : Str :=
  ("java -Xms128M -Xmx\x7b\x7bSERVER_MEMORY\x7d\x7dM -Dterminal.jline=false -Dterminal.ansi=true -jar server.jar".toList)

/-- The message of the TypeError thrown by the unguarded `data[0].attributes`
access on an empty allocation array (the Node message also names the
property being read). -/
def undefinedReadMessage : Str := ("Cannot read properties of undefined".toList)

/-- The user-creation leg of variant B's step 2. -/
def pteroCreateUserB (email uname : Str) (w : WorldB) (eff0 : EffectsB) :
    (Resp ⊕ Nat) × EffectsB :=
  let payload : NewUserPayload :=
    { email := email, username := uname, first_name := uname,
      last_name := ("User".toList), password := w.password }
  let eff1 := { eff0 with createUserReq := some payload }
  match w.createUserResp with
  | .thrown m => (.inl (internalError m), eff1)
  | .ok ub =>
    match ub.error with
    | some _ => (.inl ⟨500, .err ("Failed to create Pterodactyl user.".toList)⟩, eff1)
    | none =>
      match ub.data with
      | none => (.inl ⟨500, .err ("Failed to create Pterodactyl user.".toList)⟩, eff1)
      | some uo =>
        match uo.attributes with
        | none => (.inl ⟨500, .err ("Failed to create Pterodactyl user.".toList)⟩, eff1)
        | some attrs => (.inr attrs.id, eff1)

/-- Step 2 of variant B: find or create the panel user.  The search body's
`error` field is only logged; the existing-user branch requires the body's
`data` object to itself carry a non-empty `data` array. -/
def pteroUserB (email uname : Str) (w : WorldB) : (Resp ⊕ Nat) × EffectsB :=
  let eff0 : EffectsB := { userSearch := some email }
  match w.searchResp with
  | .thrown m => (.inl (internalError m), eff0)
  | .ok body =>
    match body.data with
    | some obj =>
      match obj.data with
      | some (u :: _) => (.inr u.attributes.id, eff0)
      | _ => pteroCreateUserB email uname w eff0
    | none => pteroCreateUserB email uname w eff0

/-- Steps 4-6 of variant B (identical shape to variant A's tail). -/
def finishB (panelUrl : Str) (o : OrderB) (w : WorldB) (attrs : ServerAttrs) (ip port : Str)
    (eff : EffectsB) : Resp × EffectsB :=
  let serverId := attrs.uuid
  let eff3 := { eff with dbUpdate := some { status := ("done".toList), pterodactyl_server_id := serverId } }
  let subject := ("Pesanan Anda Selesai: ".toList) ++ o.products.name ++ (" - #".toList) ++ o.id
  let html := emailHtmlA panelUrl (orElseStr o.username ("Pelanggan".toList))
      o.products.name o.id o.contact_email attrs.name ip port
  let eff4 := { eff3 with email := some { «to» := o.contact_email, subject := subject, html := html } }
  if strTruthy w.botToken && strTruthy w.chatIdEnv then
    let caption := chatCaptionProvision o.id (orElseStr o.username o.contact_email)
        o.products.name o.contact_email serverId panelUrl
    let eff5 := { eff4 with chat := some { chat_id := w.chatIdEnv.getD [], text := caption } }
    match w.chatResp with
    | .thrown m => (internalError m, eff5)
    | .ok _ => (⟨200, .okMsg true ("Pterodactyl server provisioned and order completed.".toList)⟩, eff5)
  else (⟨200, .okMsg true ("Pterodactyl server provisioned and order completed.".toList)⟩, eff4)

/-- Steps 2-6 of variant B, entered after all guards passed.  The allocation
extraction (lines 479-482) indexes `allocations.data[0]` without a presence
check; on an empty array the thrown TypeError reaches the outer catch. -/
def provisionB (panelUrl : Str) (o : OrderB) (w : WorldB) : Resp × EffectsB :=
  let uname := orElseStr o.username (emailLocal o.contact_email)
  match pteroUserB o.contact_email uname w with
  | (.inl r, eff) => (r, eff)
  | (.inr userId, eff) =>
    let serverName := (orElseStr o.products.server_name_prefix ("Server".toList)) ++
      (" - ".toList) ++ uname ++ (" - ".toList) ++ o.id
    let payload : ServerPayloadB :=
      { name := serverName, user := userId, egg := o.products.egg_id, nest := o.products.nest_id,
        docker_image := ("ghcr.io/pterodactyl/yolks:java".toList),
        startup := orElseStr o.products.startup_script defaultStartup,
        limits := { memory := o.products.memory, swap := o.products.swap, disk := o.products.disk,
                    io_limit := o.products.io_limit, cpu := o.products.cpu },
        feature_limits := { databases := o.products.databases, allocations := o.products.allocations,
                            backups := o.products.backups },
        deploy_locations := [o.products.location_id], dedicated_ip := false, port_range := [],
        start_on_completion := true, external_id := ("order-".toList) ++ o.id }
    let eff2 := { eff with createServerReq := some payload }
    match w.createServerResp with
    | .thrown m => (internalError m, eff2)
    | .ok sb =>
      match sb.error with
      | some _ => (⟨500, .err ("Failed to create Pterodactyl server.".toList)⟩, eff2)
      | none =>
        match sb.data with
        | none => (⟨500, .err ("Failed to create Pterodactyl server.".toList)⟩, eff2)
        | some so =>
          match so.attributes with
          | none => (⟨500, .err ("Failed to create Pterodactyl server.".toList)⟩, eff2)
          | some attrs =>
            match attrs.allocations with
            | [] => (internalError undefinedReadMessage, eff2)
            | a :: _ => finishB panelUrl o w attrs a.attributes.ip a.attributes.port eff2

/-- The variant-B fulfillment handler (part_000 lines 320-554): method guard,
order-id validation, environment credentials, order+product load, category
guard, already-provisioned short circuit (no config-link guard: the config is
embedded), then provisioning. -/
def handlerB (method : Str) (order_id : Option Str) (w : WorldB) : Resp × EffectsB :=
  if method ≠ ("POST".toList) then (⟨405, .err ("Method not allowed".toList)⟩, {})
  else if !strTruthy order_id then (⟨400, .err ("Order ID is required".toList)⟩, {})
  else if !(strTruthy w.apiKey && strTruthy w.panelUrl) then
    (⟨500, .err ("Pterodactyl API credentials not configured.".toList)⟩, {})
  else
    match w.order with
    | none => (⟨404, .err ("Order not found.".toList)⟩, {})
    | some o =>
      if w.orderError then (⟨404, .err ("Order not found.".toList)⟩, {})
      else if o.products.category ≠ ("panel_pterodactyl".toList) then
        (⟨400, .err ("Product is not a Pterodactyl panel type.".toList)⟩, {})
      else if !o.pterodactyl_server_id.isEmpty then
        (⟨200, .okMsg true ("Server already provisioned for this order.".toList)⟩, {})
      else provisionB (w.panelUrl.getD []) o w

/- ### Character-level analysis of escapeHtml -/

/-- The per-character effect of the five chained replacements. -/
def escChar (c : Char) : Str :=
  if c = '&' then ("&amp;".toList)
  else if c = '<' then ("&lt;".toList)
  else if c = '>' then ("&gt;".toList)
  else if c = '"' then ("&quot;".toList)
  else if c = '\'' then ("&#039;".toList)
  else [c]

/-- Character-wise escaping of a whole string. -/
def escAll : Str → Str
  | [] => []
  | c :: cs => escChar c ++ escAll cs

/-- Whether the string starts with the given pattern. -/
def beginsWith : Str → Str → Bool
  | [], _ => true
  | _ :: _, [] => false
  | p :: ps, c :: cs => p = c && beginsWith ps cs

/-- Whether the string starts with the tail of one of the five entities
(everything after the leading ampersand). -/
def entityAt (s : Str) : Bool :=
  beginsWith ("amp;".toList) s || beginsWith ("lt;".toList) s ||
  beginsWith ("gt;".toList) s || beginsWith ("quot;".toList) s ||
  beginsWith ("#039;".toList) s

/-- Every ampersand in the string begins one of the five entities. -/
def ampOk : Str → Bool
  | [] => true
  | c :: rest => (if c = '&' then entityAt rest else true) && ampOk rest

theorem replaceAllChar_append (c : Char) (rep : Str) (a b : Str) :
    replaceAllChar c rep (a ++ b) = replaceAllChar c rep a ++ replaceAllChar c rep b := by
  induction a with
  | nil => rfl
  | cons x xs ih => simp [replaceAllChar, ih, List.append_assoc]

theorem chain_eq_escAll (s : Str) :
    replaceAllChar '\'' ("&#039;".toList)
      (replaceAllChar '"' ("&quot;".toList)
        (replaceAllChar '>' ("&gt;".toList)
          (replaceAllChar '<' ("&lt;".toList)
            (replaceAllChar '&' ("&amp;".toList) s)))) = escAll s := by
  induction s with
  | nil => rfl
  | cons c cs ih =>
    have hhead : replaceAllChar '&' ("&amp;".toList) (c :: cs) =
        (if c = '&' then ("&amp;".toList) else [c]) ++ replaceAllChar '&' ("&amp;".toList) cs := rfl
    rw [hhead, replaceAllChar_append, replaceAllChar_append, replaceAllChar_append,
      replaceAllChar_append, ih]
    show _ ++ escAll cs = escChar c ++ escAll cs
    congr 1
    by_cases h1 : c = '&'
    · subst h1; decide
    · by_cases h2 : c = '<'
      · subst h2; decide
      · by_cases h3 : c = '>'
        · subst h3; decide
        · by_cases h4 : c = '"'
          · subst h4; decide
          · by_cases h5 : c = '\''
            · subst h5; decide
            · simp [replaceAllChar, escChar, h1, h2, h3, h4, h5]

theorem escapeHtml_eq_escAll (s : Str) : escapeHtml s = escAll s := by
  cases s with
  | nil => rfl
  | cons c cs =>
    show (if (c :: cs).isEmpty then [] else _) = _
    rw [if_neg (by simp [List.isEmpty])]
    exact chain_eq_escAll (c :: cs)

theorem mem_escChar_not_bad (c x : Char) (hx : x ∈ escChar c) :
    x ≠ '<' ∧ x ≠ '>' ∧ x ≠ '"' ∧ x ≠ '\'' := by
  by_cases h1 : c = '&'
  · subst h1; simp only [escChar, if_pos rfl] at hx
    exact (by decide : ∀ y ∈ ("&amp;".toList), y ≠ '<' ∧ y ≠ '>' ∧ y ≠ '"' ∧ y ≠ '\'') x hx
  · by_cases h2 : c = '<'
    · subst h2; simp only [escChar] at hx
      exact (by decide : ∀ y ∈ (escChar '<'), y ≠ '<' ∧ y ≠ '>' ∧ y ≠ '"' ∧ y ≠ '\'') x
        (by simpa [escChar] using hx)
    · by_cases h3 : c = '>'
      · subst h3
        exact (by decide : ∀ y ∈ (escChar '>'), y ≠ '<' ∧ y ≠ '>' ∧ y ≠ '"' ∧ y ≠ '\'') x hx
      · by_cases h4 : c = '"'
        · subst h4
          exact (by decide : ∀ y ∈ (escChar '"'), y ≠ '<' ∧ y ≠ '>' ∧ y ≠ '"' ∧ y ≠ '\'') x hx
        · by_cases h5 : c = '\''
          · subst h5
            exact (by decide : ∀ y ∈ (escChar '\''), y ≠ '<' ∧ y ≠ '>' ∧ y ≠ '"' ∧ y ≠ '\'') x hx
          · simp only [escChar, if_neg h1, if_neg h2, if_neg h3, if_neg h4, if_neg h5,
              List.mem_singleton] at hx
            subst hx
            exact ⟨h2, h3, h4, h5⟩

theorem escAll_no_bad (s : Str) :
    ∀ x ∈ escAll s, x ≠ '<' ∧ x ≠ '>' ∧ x ≠ '"' ∧ x ≠ '\'' := by
  induction s with
  | nil => intro x hx; cases hx
  | cons c cs ih =>
    intro x hx
    rcases List.mem_append.mp hx with h | h
    · exact mem_escChar_not_bad c x h
    · exact ih x h

theorem beginsWith_append (p t : Str) : beginsWith p (p ++ t) = true := by
  induction p with
  | nil => rfl
  | cons c cs ih => simp [beginsWith, ih]

theorem ampOk_escChar_append (c : Char) (rest : Str) (h : ampOk rest = true) :
    ampOk (escChar c ++ rest) = true := by
  by_cases h1 : c = '&'
  · subst h1
    show ampOk ('&' :: ('a' :: 'm' :: 'p' :: ';' :: rest)) = true
    simp [ampOk, entityAt, beginsWith, h]
  · by_cases h2 : c = '<'
    · subst h2
      show ampOk ('&' :: ('l' :: 't' :: ';' :: rest)) = true
      simp [ampOk, entityAt, beginsWith, h]
    · by_cases h3 : c = '>'
      · subst h3
        show ampOk ('&' :: ('g' :: 't' :: ';' :: rest)) = true
        simp [ampOk, entityAt, beginsWith, h]
      · by_cases h4 : c = '"'
        · subst h4
          show ampOk ('&' :: ('q' :: 'u' :: 'o' :: 't' :: ';' :: rest)) = true
          simp [ampOk, entityAt, beginsWith, h]
        · by_cases h5 : c = '\''
          · subst h5
            show ampOk ('&' :: ('#' :: '0' :: '3' :: '9' :: ';' :: rest)) = true
            simp [ampOk, entityAt, beginsWith, h]
          · have hc : escChar c = [c] := by
              simp [escChar, h1, h2, h3, h4, h5]
            rw [hc]
            simp [ampOk, h1, h]

theorem escAll_ampOk (s : Str) : ampOk (escAll s) = true := by
  induction s with
  | nil => rfl
  | cons c cs ih => exact ampOk_escChar_append c (escAll cs) ih

/- ### Claim theorems -/

/-- C3: escapeHtml's output never contains a raw `<`, `>`, `"` or `'`, and
every `&` in the output begins one of the entities `&amp;` `&lt;` `&gt;`
`&quot;` `&#039;` — so any such character in the final message text can only
come from the fixed template markup. -/
theorem escapeHtml_total_escaping (s : Str) :
    (∀ x ∈ escapeHtml s, x ≠ '<' ∧ x ≠ '>' ∧ x ≠ '"' ∧ x ≠ '\'') ∧
      ampOk (escapeHtml s) = true := by
  rw [escapeHtml_eq_escAll]
  exact ⟨escAll_no_bad s, escAll_ampOk s⟩

/-- Witness for C3, at the input `a&b<c"'` and the output character `&`. -/
theorem escapeHtml_total_escaping_witness :
    ('&' ≠ '<' ∧ '&' ≠ '>' ∧ '&' ≠ '"' ∧ '&' ≠ '\'') ∧
      ampOk (escapeHtml ("a&b<c\"'".toList)) = true :=
  ⟨(escapeHtml_total_escaping ("a&b<c\"'".toList)).1 '&' (by decide),
   (escapeHtml_total_escaping ("a&b<c\"'".toList)).2⟩

/-- C4: `sendEmail` always returns a structured result and never raises past
its boundary: a thrown transport error is caught and reported as
`{success:false, error:message}`, a provider-reported error gives
`{success:false, error}`, and success gives `{success:true, data}`. -/
theorem sendEmail_structured_result :
    (∀ m : Str, sendEmail (.thrown m) =
        { success := false, data := none, error := some (.exn m) }) ∧
    (∀ (d : Option Str) (e : Str), sendEmail (.returns d (some e)) =
        { success := false, data := none, error := some (.provider e) }) ∧
    (∀ d : Option Str, sendEmail (.returns d none) =
        { success := true, data := d, error := none }) :=
  ⟨fun _ => rfl, fun _ _ => rfl, fun _ => rfl⟩

/-- C2: the broadcast handler's template selection is a pure function of
`(status, product_category)`: `waiting_confirmation` always selects the
new-order template, `done` on `panel_pterodactyl` selects the provisioned
template, every other combination selects the generic template; and the
provisioned caption contains the escaped server id and panel URL. -/
theorem notifyTemplate_selection :
    (∀ status category : Str, status = ("waiting_confirmation".toList) →
        notifyTemplate status category = .newOrder) ∧
    (∀ status category : Str, status = ("done".toList) →
        category = ("panel_pterodactyl".toList) →
        notifyTemplate status category = .provisioned) ∧
    (∀ status category : Str, status ≠ ("waiting_confirmation".toList) →
        ¬(status = ("done".toList) ∧ category = ("panel_pterodactyl".toList)) →
        notifyTemplate status category = .generic) ∧
    (∀ (url : Str) (o : OrderN), notifyTemplate o.status o.product_category = .provisioned →
        ∃ pre mid post, captionFor url o =
          pre ++ escapeHtmlJs (jsOrJs o.pterodactyl_server_id (.vStr ("-".toList))) ++
            mid ++ escapeHtml url ++ post) := by
  refine ⟨?_, ?_, ?_, ?_⟩
  · intro s c hs; subst hs; simp [notifyTemplate]
  · intro s c hs hc; subst hs; subst hc; decide
  · intro s c h1 h2; unfold notifyTemplate; rw [if_neg h1, if_neg h2]
  · intro url o hsel
    unfold captionFor
    rw [hsel]
    refine ⟨("\n✅ <b>Pesanan Selesai (Pterodactyl)</b>\n\n🆔 Order ID: <code>".toList) ++
        escapeHtmlJs o.id ++ ("</code>\n👤 User: <b>".toList) ++ escapeHtmlJs o.username ++
        ("</b>\n📦 Produk: <b>".toList) ++ escapeHtmlJs o.product_name ++
        ("</b>\n📧 Email: <b>".toList) ++
        escapeHtmlJs (jsOrJs o.contact_email (.vStr ("-".toList))) ++
        ("</b>\n📄 Status: <b>".toList) ++ statusDisplay o.status ++
        ("</b>\n⚙️ Server Pterodactyl ID: <code>".toList),
      ("</code>\n🔗 Panel URL: ".toList), ("\n        ".toList), ?_⟩
    simp only [provisionedCaption, List.append_assoc]

/-- Witness for C2 at the three concrete status/category pairs. -/
theorem notifyTemplate_selection_witness :
    notifyTemplate ("waiting_confirmation".toList) ("x".toList) = .newOrder ∧
    notifyTemplate ("done".toList) ("panel_pterodactyl".toList) = .provisioned ∧
    notifyTemplate ("done".toList) ("vps".toList) = .generic :=
  ⟨notifyTemplate_selection.1 _ _ rfl,
   notifyTemplate_selection.2.1 _ _ rfl rfl,
   notifyTemplate_selection.2.2.1 _ _ (by decide) (by decide)⟩

/-- C10: `escapeHtml` maps every falsy input — null, undefined, the number 0,
the empty string, false — to the empty string, so a falsy order field (for
example a numeric id equal to 0, whose literal rendering is "0") comes out
blank in the message. -/
theorem escapeHtml_falsy_blank :
    (∀ v : JsValue, jsFalsy v = true → escapeHtmlJs v = []) ∧
    jsFalsy .vNull = true ∧ jsFalsy .vUndefined = true ∧ jsFalsy (.vNum 0) = true ∧
    jsFalsy (.vStr []) = true ∧ jsFalsy (.vBool false) = true ∧
    jsToString (.vNum 0) = ("0".toList) := by
  refine ⟨?_, by decide, by decide, by decide, by decide, by decide, by decide⟩
  intro v h
  simp [escapeHtmlJs, h]

/-- Witness for C10 at the numeric order id 0. -/
theorem escapeHtml_falsy_blank_witness :
    escapeHtmlJs (.vNum 0) = [] :=
  escapeHtml_falsy_blank.1 (.vNum 0) (by decide)

/-- A non-empty list has `isEmpty = false`. -/
theorem isEmpty_false_of_ne_nil {l : Str} (h : l ≠ []) : l.isEmpty = false := by
  cases l with
  | nil => exact absurd rfl h
  | cons c cs => rfl

/-- Inversion of JS truthiness on an optional string. -/
theorem strTruthy_eq_true {o : Option Str} (h : strTruthy o = true) :
    ∃ s, o = some s ∧ s.isEmpty = false := by
  cases o with
  | none => exact absurd h (by simp [strTruthy])
  | some s =>
    refine ⟨s, rfl, ?_⟩
    simpa [strTruthy] using h

/- ### C1: the already-provisioned short circuit -/

/-- A well-configured settings row for concrete runs. -/
def stOk : SettingsRow :=
  { pterodactyl_api_key := ("key-1".toList),
    pterodactyl_panel_url := ("https://panel.example".toList) }

/-- A concrete linked panel config. -/
def cfgOk : PteroConfig :=
  { egg_id := 1, nest_id := 2, location_id := 3, memory := 1024, cpu := 100,
    disk := 5120, swap := 0, io_limit := 500 }

/-- An order that already carries a panel-server id but whose product category
is not the panel sentinel. -/
def orderC1cx : OrderA :=
  { id := ("7".toList), user_id := ("u1".toList), product_id := ("p1".toList),
    contact_email := ("a@b.com".toList), username := ("abe".toList),
    status := ("paid".toList), pterodactyl_server_id := ("srv-1".toList),
    products := { name := ("VPS Small".toList), category := ("vps".toList),
                  pterodactyl_configs := none } }

/-- The world of the C1 counterexample run. -/
def worldC1cx : WorldA :=
  { settingsError := false, settings := some stOk, orderError := false,
    order := some orderC1cx,
    searchResp := .ok { ok := true, data := some [] },
    createUserResp := .ok { ok := true, body := none },
    password := ("pw123".toList),
    createServerResp := .ok { ok := true, body := none },
    updateError := false, emailOutcome := .returns none none,
    botToken := none, chatIdEnv := none, chatResp := .ok () }

/-- Counterexample to C1 as stated: an order record whose
`pterodactyl_server_id` is non-empty, on which the fulfillment handler answers
400 (the category guard runs before the already-provisioned check), not the
success response the claim promises. -/
theorem already_provisioned_not_always_success :
    orderC1cx.pterodactyl_server_id ≠ [] ∧
    worldC1cx.order = some orderC1cx ∧
    (handlerA ("POST".toList) (some ("7".toList)) worldC1cx).1.status = 400 ∧
    (handlerA ("POST".toList) (some ("7".toList)) worldC1cx).1.isSuccess = false := by
  decide

/-- C1 (amended): for every loaded order carrying a non-empty panel-server id
whose product passes the category guard (and, in the settings variant, the
config-link guard), fulfillment returns 200 `success:true` and issues no
outbound panel, email or chat call and no database write. -/
theorem already_provisioned_noop :
    (∀ (oid : Str) (w : WorldA) (st : SettingsRow) (o : OrderA),
      oid ≠ [] →
      w.settingsError = false → w.settings = some st →
      st.pterodactyl_api_key ≠ [] → st.pterodactyl_panel_url ≠ [] →
      w.orderError = false → w.order = some o →
      o.products.category = ("panel_pterodactyl".toList) →
      o.products.pterodactyl_configs.isSome = true →
      o.pterodactyl_server_id ≠ [] →
      handlerA ("POST".toList) (some oid) w =
        (⟨200, .okMsg true ("Server already provisioned for this order.".toList)⟩, {})) ∧
    (∀ (oid : Str) (w : WorldB) (o : OrderB),
      oid ≠ [] →
      strTruthy w.apiKey = true → strTruthy w.panelUrl = true →
      w.orderError = false → w.order = some o →
      o.products.category = ("panel_pterodactyl".toList) →
      o.pterodactyl_server_id ≠ [] →
      handlerB ("POST".toList) (some oid) w =
        (⟨200, .okMsg true ("Server already provisioned for this order.".toList)⟩, {})) := by
  constructor
  · intro oid w st o hoid hse hst hkey hurl hoe hord hcat hcfg hsid
    obtain ⟨cfg, hcfg'⟩ := Option.isSome_iff_exists.mp hcfg
    unfold handlerA handlerGuardsA
    simp [strTruthy, isEmpty_false_of_ne_nil hoid, hse, hst,
      isEmpty_false_of_ne_nil hkey, isEmpty_false_of_ne_nil hurl, hoe, hord, hcat, hcfg',
      isEmpty_false_of_ne_nil hsid]
  · intro oid w o hoid hkey hurl hoe hord hcat hsid
    obtain ⟨ka, hka, hka'⟩ := strTruthy_eq_true hkey
    obtain ⟨pu, hpu, hpu'⟩ := strTruthy_eq_true hurl
    unfold handlerB
    simp [strTruthy, isEmpty_false_of_ne_nil hoid, hka, hka', hpu, hpu', hoe, hord, hcat,
      isEmpty_false_of_ne_nil hsid]

/-- An already-provisioned panel order (variant A shape). -/
def orderC1ok : OrderA :=
  { id := ("8".toList), user_id := ("u1".toList), product_id := ("p1".toList),
    contact_email := ("a@b.com".toList), username := ("abe".toList),
    status := ("paid".toList), pterodactyl_server_id := ("srv-2".toList),
    products := { name := ("Panel S".toList), category := ("panel_pterodactyl".toList),
                  pterodactyl_configs := some cfgOk } }

/-- The world of the C1 witness run (variant A). -/
def worldC1ok : WorldA :=
  { worldC1cx with order := some orderC1ok }

/-- An already-provisioned panel order (variant B shape). -/
def orderC1okB : OrderB :=
  { id := ("9".toList), user_id := ("u1".toList), product_id := ("p1".toList),
    contact_email := ("a@b.com".toList), username := ("abe".toList),
    status := ("paid".toList), pterodactyl_server_id := ("srv-3".toList),
    products := { name := ("Panel S".toList), category := ("panel_pterodactyl".toList),
                  egg_id := 1, nest_id := 2, location_id := 3, memory := 1024, cpu := 100,
                  disk := 5120, swap := 0, io_limit := 500, databases := 1, allocations := 1,
                  backups := 1, startup_script := [], server_name_prefix := [] } }

/-- The world of the C1 witness run (variant B). -/
def worldC1okB : WorldB :=
  { apiKey := some ("key-1".toList), panelUrl := some ("https://panel.example".toList),
    orderError := false, order := some orderC1okB,
    searchResp := .ok { data := none, error := none },
    createUserResp := .ok { data := none, error := none },
    password := ("pw123".toList),
    createServerResp := .ok { data := none, error := none },
    updateError := false, emailOutcome := .returns none none,
    botToken := none, chatIdEnv := none, chatResp := .ok () }

/-- Witness for the amended C1 on both variants. -/
theorem already_provisioned_noop_witness :
    handlerA ("POST".toList) (some ("8".toList)) worldC1ok =
      (⟨200, .okMsg true ("Server already provisioned for this order.".toList)⟩, {}) ∧
    handlerB ("POST".toList) (some ("9".toList)) worldC1okB =
      (⟨200, .okMsg true ("Server already provisioned for this order.".toList)⟩, {}) :=
  ⟨already_provisioned_noop.1 ("8".toList) worldC1ok stOk orderC1ok (by decide) rfl rfl
      (by decide) (by decide) rfl rfl (by decide) (by decide) (by decide),
   already_provisioned_noop.2 ("9".toList) worldC1okB orderC1okB (by decide) (by decide)
      (by decide) rfl rfl (by decide) (by decide)⟩

/- ### C5: the category guard -/

/-- C5: for every loaded order whose product category differs from the panel
sentinel, both fulfillment variants answer 400 and issue no outbound panel,
email or chat call and no database write. -/
theorem wrong_category_client_error :
    (∀ (oid : Str) (w : WorldA) (st : SettingsRow) (o : OrderA),
      oid ≠ [] →
      w.settingsError = false → w.settings = some st →
      st.pterodactyl_api_key ≠ [] → st.pterodactyl_panel_url ≠ [] →
      w.orderError = false → w.order = some o →
      o.products.category ≠ ("panel_pterodactyl".toList) →
      handlerA ("POST".toList) (some oid) w =
        (⟨400, .err ("Product is not a Pterodactyl panel type.".toList)⟩, {})) ∧
    (∀ (oid : Str) (w : WorldB) (o : OrderB),
      oid ≠ [] →
      strTruthy w.apiKey = true → strTruthy w.panelUrl = true →
      w.orderError = false → w.order = some o →
      o.products.category ≠ ("panel_pterodactyl".toList) →
      handlerB ("POST".toList) (some oid) w =
        (⟨400, .err ("Product is not a Pterodactyl panel type.".toList)⟩, {})) := by
  constructor
  · intro oid w st o hoid hse hst hkey hurl hoe hord hcat
    simp only [ne_eq] at hcat
    simp at hcat
    unfold handlerA handlerGuardsA
    simp [strTruthy, isEmpty_false_of_ne_nil hoid, hse, hst,
      isEmpty_false_of_ne_nil hkey, isEmpty_false_of_ne_nil hurl, hoe, hord, hcat]
  · intro oid w o hoid hkey hurl hoe hord hcat
    obtain ⟨ka, hka, hka'⟩ := strTruthy_eq_true hkey
    obtain ⟨pu, hpu, hpu'⟩ := strTruthy_eq_true hurl
    unfold handlerB
    simp [strTruthy, isEmpty_false_of_ne_nil hoid, hka, hka', hpu, hpu', hoe, hord]
    intro hc
    exact absurd hc hcat

/-- A loaded order with a non-panel product category (variant A shape). -/
def orderC5 : OrderA :=
  { id := ("11".toList), user_id := ("u2".toList), product_id := ("p2".toList),
    contact_email := ("c@d.com".toList), username := ("carol".toList),
    status := ("paid".toList), pterodactyl_server_id := [],
    products := { name := ("Hosting M".toList), category := ("hosting".toList),
                  pterodactyl_configs := some cfgOk } }

/-- The world of the C5 witness run (variant A). -/
def worldC5 : WorldA :=
  { worldC1cx with order := some orderC5 }

/-- A loaded order with a non-panel product category (variant B shape). -/
def orderC5B : OrderB :=
  { id := ("12".toList), user_id := ("u2".toList), product_id := ("p2".toList),
    contact_email := ("c@d.com".toList), username := ("carol".toList),
    status := ("paid".toList), pterodactyl_server_id := [],
    products := { name := ("Hosting M".toList), category := ("hosting".toList),
                  egg_id := 1, nest_id := 2, location_id := 3, memory := 1024, cpu := 100,
                  disk := 5120, swap := 0, io_limit := 500, databases := 1, allocations := 1,
                  backups := 1, startup_script := [], server_name_prefix := [] } }

/-- The world of the C5 witness run (variant B). -/
def worldC5B : WorldB :=
  { worldC1okB with order := some orderC5B }

/-- Witness for C5 on both variants. -/
theorem wrong_category_client_error_witness :
    handlerA ("POST".toList) (some ("11".toList)) worldC5 =
      (⟨400, .err ("Product is not a Pterodactyl panel type.".toList)⟩, {}) ∧
    handlerB ("POST".toList) (some ("12".toList)) worldC5B =
      (⟨400, .err ("Product is not a Pterodactyl panel type.".toList)⟩, {}) :=
  ⟨wrong_category_client_error.1 ("11".toList) worldC5 stOk orderC5 (by decide) rfl rfl
      (by decide) (by decide) rfl rfl (by decide),
   wrong_category_client_error.2 ("12".toList) worldC5B orderC5B (by decide) (by decide)
      (by decide) rfl rfl (by decide)⟩

/- ### C6: per-record failures and the batch -/

/-- If every outbound chat call returns an HTTP response (whatever its `ok`
flag), the loop visits every record, issues one call per record, and ends
with the generic success response. -/
theorem notifyLoop_all_responses (cid url : Str) (behav : Nat → JsTry TgResult)
    (hb : ∀ i, ∃ r, behav i = .ok r) :
    ∀ (os : List OrderN) (i : Nat) (acc : List ChatCall),
      (notifyLoop cid url behav i acc os).1 =
        ⟨200, .okMsg true ("Notifications sent.".toList)⟩ ∧
      (notifyLoop cid url behav i acc os).2.length = acc.length + os.length := by
  intro os
  induction os with
  | nil =>
    intro i acc
    exact ⟨rfl, by simp [notifyLoop]⟩
  | cons o rest ih =>
    intro i acc
    obtain ⟨r, hr⟩ := hb i
    have h1 : notifyLoop cid url behav i acc (o :: rest) =
        notifyLoop cid url behav (i + 1) (mkChatCall cid url o :: acc) rest := by
      simp [notifyLoop, hr]
    rw [h1]
    obtain ⟨hresp, hlen⟩ := ih (i + 1) (mkChatCall cid url o :: acc)
    refine ⟨hresp, ?_⟩
    rw [hlen]
    simp
    omega

/-- Credentials and settings of the concrete broadcast runs. -/
def envC6 : NotifyEnv :=
  { botToken := some ("bot-token".toList), chatIdEnv := some ("4242".toList),
    settingsUrl := some ("https://panel.example".toList), settingsErrCode := none }

/-- First record of the counterexample batch. -/
def orderN1 : OrderN :=
  { id := .vNum 1, username := .vStr ("alice".toList), product_name := .vStr ("VPS".toList),
    payment_method := .vStr ("qris".toList), contact_email := .vStr ("a@b.com".toList),
    status := ("waiting_confirmation".toList), product_category := ("vps".toList),
    pterodactyl_server_id := .vNull, payment_proof := .vNull }

/-- Second record of the counterexample batch. -/
def orderN2 : OrderN :=
  { id := .vNum 2, username := .vStr ("bob".toList), product_name := .vStr ("VPS".toList),
    payment_method := .vStr ("qris".toList), contact_email := .vStr ("b@b.com".toList),
    status := ("done".toList), product_category := ("vps".toList),
    pterodactyl_server_id := .vNull, payment_proof := .vNull }

/-- A failure pattern in which the first outbound chat call throws. -/
def behavC6 : Nat → JsTry TgResult :=
  fun i => if i = 0 then .thrown ("fetch failed".toList) else .ok ⟨true⟩

/-- Counterexample to C6 as stated: when the first record's outbound chat call
fails by throwing (a transport failure rather than an in-band `ok:false`
body), the handler answers 500 and never processes the second record. -/
theorem notify_batch_abort_on_thrown :
    (notifyHandler ("POST".toList) (some [orderN1, orderN2]) envC6 behavC6).1.status = 500 ∧
    (notifyHandler ("POST".toList) (some [orderN1, orderN2]) envC6 behavC6).1.isSuccess = false ∧
    (notifyHandler ("POST".toList) (some [orderN1, orderN2]) envC6 behavC6).2.length = 1 := by
  decide

/-- C6 (amended): a per-record dispatch failure reported in the Telegram
response body (`ok:false`) is only logged: for every batch and every pattern
of in-band failures — every call returning a response — the handler issues one
call per record and returns the generic success response.  (A thrown transport
error instead aborts the batch through the outer catch.) -/
theorem notify_batch_continues (os : List OrderN) (env : NotifyEnv)
    (behav : Nat → JsTry TgResult)
    (hbt : strTruthy env.botToken = true) (hcid : strTruthy env.chatIdEnv = true)
    (hb : ∀ i, ∃ r, behav i = .ok r) :
    (notifyHandler ("POST".toList) (some os) env behav).1 =
      ⟨200, .okMsg true ("Notifications sent.".toList)⟩ ∧
    (notifyHandler ("POST".toList) (some os) env behav).2.length = os.length := by
  unfold notifyHandler
  simp only [hbt, hcid]
  have h := notifyLoop_all_responses (env.chatIdEnv.getD [])
    (jsOrStr env.settingsUrl ("-".toList)) behav hb os 0 []
  simpa using h

/-- A failure pattern in which every call returns a response with `ok:false`. -/
def behavAllNotOk : Nat → JsTry TgResult := fun _ => .ok ⟨false⟩

/-- Witness for the amended C6: a two-record batch in which every Telegram
response reports failure still yields 200 and two dispatched calls. -/
theorem notify_batch_continues_witness :
    (notifyHandler ("POST".toList) (some [orderN1, orderN2]) envC6 behavAllNotOk).1 =
      ⟨200, .okMsg true ("Notifications sent.".toList)⟩ ∧
    (notifyHandler ("POST".toList) (some [orderN1, orderN2]) envC6 behavAllNotOk).2.length =
      [orderN1, orderN2].length :=
  notify_batch_continues [orderN1, orderN2] envC6 behavAllNotOk (by decide) (by decide)
    (fun _ => ⟨⟨false⟩, rfl⟩)

/- ### Projection lemmas for the tail of variant A -/

/-- The success response of the provisioning handlers. -/
def provisionedOk : Resp :=
  ⟨200, .okMsg true ("Pterodactyl server provisioned and order completed.".toList)⟩

theorem finishA_fst_indep (st : SettingsRow) (o : OrderA) (w : WorldA) (attrs : ServerAttrs)
    (e₁ e₂ : EffectsA) : (finishA st o w attrs e₁).1 = (finishA st o w attrs e₂).1 := by
  unfold finishA
  cases hcond : (strTruthy w.botToken && strTruthy w.chatIdEnv) with
  | false => simp [hcond]
  | true =>
    cases w.chatResp with
    | thrown m => simp [hcond]
    | ok v => simp [hcond]

theorem finishA_fst_200 (st : SettingsRow) (o : OrderA) (w : WorldA) (attrs : ServerAttrs)
    (e : EffectsA) (hchat : w.chatResp = .ok ()) : (finishA st o w attrs e).1 = provisionedOk := by
  unfold finishA
  cases hcond : (strTruthy w.botToken && strTruthy w.chatIdEnv) with
  | false => simp [hcond, provisionedOk]
  | true => simp [hcond, hchat, provisionedOk]

theorem finishA_dbUpdate (st : SettingsRow) (o : OrderA) (w : WorldA) (attrs : ServerAttrs)
    (e : EffectsA) :
    ((finishA st o w attrs e).2).dbUpdate =
      some { status := ("done".toList), pterodactyl_server_id := attrs.uuid } := by
  unfold finishA
  cases hcond : (strTruthy w.botToken && strTruthy w.chatIdEnv) with
  | false => simp [hcond]
  | true =>
    cases w.chatResp with
    | thrown m => simp [hcond]
    | ok v => simp [hcond]

theorem finishA_email_eq (st : SettingsRow) (o : OrderA) (w : WorldA) (attrs : ServerAttrs)
    (e : EffectsA) :
    ((finishA st o w attrs e).2).email = some
      { «to» := o.contact_email,
        subject := ("Pesanan Anda Selesai: ".toList) ++ o.products.name ++ (" - #".toList) ++ o.id,
        html := emailHtmlA st.pterodactyl_panel_url (orElseStr o.username ("Pelanggan".toList))
          o.products.name o.id o.contact_email attrs.name
          (extractAllocA attrs.allocations).1 (extractAllocA attrs.allocations).2 } := by
  unfold finishA
  cases hcond : (strTruthy w.botToken && strTruthy w.chatIdEnv) with
  | false => simp [hcond]
  | true =>
    cases w.chatResp with
    | thrown m => simp [hcond]
    | ok v => simp [hcond]

theorem finishA_chat_some (st : SettingsRow) (o : OrderA) (w : WorldA) (attrs : ServerAttrs)
    (e : EffectsA) (hbt : strTruthy w.botToken = true) (hcid : strTruthy w.chatIdEnv = true) :
    ((finishA st o w attrs e).2).chat.isSome = true := by
  unfold finishA
  cases w.chatResp with
  | thrown m => simp [hbt, hcid]
  | ok v => simp [hbt, hcid]

theorem finishA_createUserReq (st : SettingsRow) (o : OrderA) (w : WorldA) (attrs : ServerAttrs)
    (e : EffectsA) : ((finishA st o w attrs e).2).createUserReq = e.createUserReq := by
  unfold finishA
  cases hcond : (strTruthy w.botToken && strTruthy w.chatIdEnv) with
  | false => simp [hcond]
  | true =>
    cases w.chatResp with
    | thrown m => simp [hcond]
    | ok v => simp [hcond]

/-- A run that passes every guard, reuses an existing panel user, and gets a
well-shaped server-creation response ends in `finishA`, with no user-creation
call issued. -/
theorem handlerA_reaches_finishA (oid : Str) (w : WorldA) (st : SettingsRow) (o : OrderA)
    (cfg : PteroConfig) (sr : SearchRespA) (u : UserEntry) (us : List UserEntry)
    (csr : CreateServerRespA) (body : CreateServerBody) (attrs : ServerAttrs)
    (hoid : oid ≠ [])
    (hse : w.settingsError = false) (hst : w.settings = some st)
    (hkey : st.pterodactyl_api_key ≠ []) (hurl : st.pterodactyl_panel_url ≠ [])
    (hoe : w.orderError = false) (hord : w.order = some o)
    (hcat : o.products.category = ("panel_pterodactyl".toList))
    (hcfg : o.products.pterodactyl_configs = some cfg)
    (hsid : o.pterodactyl_server_id = [])
    (hsearch : w.searchResp = .ok sr) (hdata : sr.data = some (u :: us))
    (hcs : w.createServerResp = .ok csr) (hcsok : csr.ok = true)
    (hbody : csr.body = some body) (hattrs : body.attributes = some attrs) :
    ∃ eff : EffectsA, handlerA ("POST".toList) (some oid) w = finishA st o w attrs eff ∧
      eff.createUserReq = none := by
  have hrun : handlerA ("POST".toList) (some oid) w = provisionA st o cfg w := by
    unfold handlerA handlerGuardsA
    simp [strTruthy, isEmpty_false_of_ne_nil hoid, hse, hst,
      isEmpty_false_of_ne_nil hkey, isEmpty_false_of_ne_nil hurl, hoe, hord, hcat, hcfg, hsid]
  have huser : pteroUserA o.contact_email (orElseStr o.username (emailLocal o.contact_email)) w =
      (.inr u.attributes.id, { userSearch := some o.contact_email }) := by
    unfold pteroUserA
    simp [hsearch, hdata]
  rw [hrun]
  unfold provisionA serverStageA
  simp only [huser, hcs, hbody, hattrs, hcsok, if_true]
  exact ⟨_, rfl, rfl⟩

/- ### C7: a failed status update does not fail the request -/

/-- C7: the order-update error flag never changes the handler's output (it is
only logged), and a run that reaches the update step with a failing update
still records the update attempt, still dispatches the completion email, still
sends the admin chat message when credentials are configured, and still
returns 200. -/
theorem update_failure_does_not_fail_request :
    (∀ (method : Str) (oid : Option Str) (w : WorldA),
      handlerA method oid { w with updateError := true } =
        handlerA method oid { w with updateError := false }) ∧
    (∀ (oid : Str) (w : WorldA) (st : SettingsRow) (o : OrderA) (cfg : PteroConfig)
        (sr : SearchRespA) (u : UserEntry) (us : List UserEntry)
        (csr : CreateServerRespA) (body : CreateServerBody) (attrs : ServerAttrs),
      oid ≠ [] →
      w.settingsError = false → w.settings = some st →
      st.pterodactyl_api_key ≠ [] → st.pterodactyl_panel_url ≠ [] →
      w.orderError = false → w.order = some o →
      o.products.category = ("panel_pterodactyl".toList) →
      o.products.pterodactyl_configs = some cfg →
      o.pterodactyl_server_id = [] →
      w.searchResp = .ok sr → sr.data = some (u :: us) →
      w.createServerResp = .ok csr → csr.ok = true →
      csr.body = some body → body.attributes = some attrs →
      w.updateError = true →
      w.chatResp = .ok () →
      (handlerA ("POST".toList) (some oid) w).1 = provisionedOk ∧
      ((handlerA ("POST".toList) (some oid) w).2).dbUpdate =
        some { status := ("done".toList), pterodactyl_server_id := attrs.uuid } ∧
      ((handlerA ("POST".toList) (some oid) w).2).email.isSome = true ∧
      (strTruthy w.botToken = true → strTruthy w.chatIdEnv = true →
        ((handlerA ("POST".toList) (some oid) w).2).chat.isSome = true)) := by
  constructor
  · intro method oid w
    cases w
    rfl
  · intro oid w st o cfg sr u us csr body attrs hoid hse hst hkey hurl hoe hord hcat hcfg
      hsid hsearch hdata hcs hcsok hbody hattrs hupd hchat
    obtain ⟨eff, heq, -⟩ := handlerA_reaches_finishA oid w st o cfg sr u us csr body attrs
      hoid hse hst hkey hurl hoe hord hcat hcfg hsid hsearch hdata hcs hcsok hbody hattrs
    rw [heq]
    refine ⟨finishA_fst_200 st o w attrs eff hchat, finishA_dbUpdate st o w attrs eff, ?_, ?_⟩
    · rw [finishA_email_eq st o w attrs eff]
      rfl
    · intro hbt hcid
      exact finishA_chat_some st o w attrs eff hbt hcid

/-- A provisionable panel order (variant A shape). -/
def orderC7 : OrderA :=
  { id := ("21".toList), user_id := ("u3".toList), product_id := ("p3".toList),
    contact_email := ("e@f.com".toList), username := ("eve".toList),
    status := ("paid".toList), pterodactyl_server_id := [],
    products := { name := ("Panel M".toList), category := ("panel_pterodactyl".toList),
                  pterodactyl_configs := some cfgOk } }

/-- The user-search response of the C7 witness run (one existing user). -/
def searchC7 : SearchRespA := { ok := true, data := some [{ attributes := { id := 77 } }] }

/-- The created server of the C7 witness run. -/
def srvAttrsC7 : ServerAttrs :=
  { uuid := ("uuid-1".toList), name := ("Server X".toList),
    allocations := [{ attributes := { ip := ("1.2.3.4".toList), port := ("25565".toList) } }] }

/-- The server-creation response of the C7 witness run. -/
def csrC7 : CreateServerRespA := { ok := true, body := some { attributes := some srvAttrsC7 } }

/-- The world of the C7 witness run: provisioning succeeds but the database
update fails, and chat credentials are configured. -/
def worldC7 : WorldA :=
  { settingsError := false, settings := some stOk, orderError := false,
    order := some orderC7,
    searchResp := .ok searchC7,
    createUserResp := .ok { ok := true, body := none },
    password := ("pw123".toList),
    createServerResp := .ok csrC7,
    updateError := true, emailOutcome := .returns none none,
    botToken := some ("bot-token".toList), chatIdEnv := some ("4242".toList),
    chatResp := .ok () }

/-- Witness for C7: the concrete failing-update run still answers 200, still
records the update attempt, still emails, and still notifies the admin chat. -/
theorem update_failure_does_not_fail_request_witness :
    (handlerA ("POST".toList) (some ("21".toList)) worldC7).1 = provisionedOk ∧
    ((handlerA ("POST".toList) (some ("21".toList)) worldC7).2).dbUpdate =
      some { status := ("done".toList), pterodactyl_server_id := srvAttrsC7.uuid } ∧
    ((handlerA ("POST".toList) (some ("21".toList)) worldC7).2).email.isSome = true ∧
    ((handlerA ("POST".toList) (some ("21".toList)) worldC7).2).chat.isSome = true := by
  obtain ⟨h1, h2, h3, h4⟩ := update_failure_does_not_fail_request.2 ("21".toList) worldC7 stOk
    orderC7 cfgOk searchC7 { attributes := { id := 77 } } [] csrC7
    { attributes := some srvAttrsC7 } srvAttrsC7
    (by decide) rfl rfl (by decide) (by decide) rfl rfl rfl rfl rfl rfl rfl rfl rfl rfl rfl rfl rfl
  exact ⟨h1, h2, h3, h4 (by decide) (by decide)⟩

/- ### C8: empty allocation list -/

/-- A run of variant B that passes every guard, reuses an existing panel user,
and gets a well-shaped server-creation response whose allocation array is
empty ends in the caught TypeError: 500 with no database write, no email and
no chat message. -/
theorem handlerB_empty_alloc (oid : Str) (w : WorldB) (o : OrderB) (sb : SearchBodyB)
    (obj : SearchObjB) (u : UserEntry) (us : List UserEntry) (ssb : ServerBodyB)
    (so : ServerObjB) (attrs : ServerAttrs)
    (hoid : oid ≠ [])
    (hkey : strTruthy w.apiKey = true) (hurl : strTruthy w.panelUrl = true)
    (hoe : w.orderError = false) (hord : w.order = some o)
    (hcat : o.products.category = ("panel_pterodactyl".toList))
    (hsid : o.pterodactyl_server_id = [])
    (hsearch : w.searchResp = .ok sb) (hbd : sb.data = some obj)
    (hobj : obj.data = some (u :: us))
    (hcs : w.createServerResp = .ok ssb) (hserr : ssb.error = none)
    (hsdata : ssb.data = some so) (hsattrs : so.attributes = some attrs)
    (halloc : attrs.allocations = []) :
    ∃ eff : EffectsB,
      handlerB ("POST".toList) (some oid) w = (internalError undefinedReadMessage, eff) ∧
      eff.dbUpdate = none ∧ eff.email = none ∧ eff.chat = none := by
  obtain ⟨ka, hka, hka'⟩ := strTruthy_eq_true hkey
  obtain ⟨pu, hpu, hpu'⟩ := strTruthy_eq_true hurl
  have hrun : handlerB ("POST".toList) (some oid) w = provisionB (w.panelUrl.getD []) o w := by
    unfold handlerB
    simp [strTruthy, isEmpty_false_of_ne_nil hoid, hka, hka', hpu, hpu', hoe, hord, hcat, hsid]
  have huser : pteroUserB o.contact_email (orElseStr o.username (emailLocal o.contact_email)) w =
      (.inr u.attributes.id, { userSearch := some o.contact_email }) := by
    unfold pteroUserB
    simp [hsearch, hbd, hobj]
  rw [hrun]
  unfold provisionB
  simp only [huser, hcs, hserr, hsdata, hsattrs, halloc]
  exact ⟨_, rfl, rfl, rfl, rfl⟩

/-- C8: on an empty allocation list, variant A substitutes the placeholder and
completes (200, email rendered with N/A for ip and port), while variant B's
unguarded `data[0].attributes` access throws, so the request fails with the
caught 500 instead of completing (no database write, no email, no chat). -/
theorem empty_allocation_two_variants :
    extractAllocA [] = (("N/A".toList), ("N/A".toList)) ∧
    (∀ (oid : Str) (w : WorldA) (st : SettingsRow) (o : OrderA) (cfg : PteroConfig)
        (sr : SearchRespA) (u : UserEntry) (us : List UserEntry)
        (csr : CreateServerRespA) (body : CreateServerBody) (attrs : ServerAttrs),
      oid ≠ [] →
      w.settingsError = false → w.settings = some st →
      st.pterodactyl_api_key ≠ [] → st.pterodactyl_panel_url ≠ [] →
      w.orderError = false → w.order = some o →
      o.products.category = ("panel_pterodactyl".toList) →
      o.products.pterodactyl_configs = some cfg →
      o.pterodactyl_server_id = [] →
      w.searchResp = .ok sr → sr.data = some (u :: us) →
      w.createServerResp = .ok csr → csr.ok = true →
      csr.body = some body → body.attributes = some attrs →
      attrs.allocations = [] →
      w.chatResp = .ok () →
      (handlerA ("POST".toList) (some oid) w).1 = provisionedOk ∧
      ((handlerA ("POST".toList) (some oid) w).2).email = some
        { «to» := o.contact_email,
          subject := ("Pesanan Anda Selesai: ".toList) ++ o.products.name ++
            (" - #".toList) ++ o.id,
          html := emailHtmlA st.pterodactyl_panel_url
            (orElseStr o.username ("Pelanggan".toList)) o.products.name o.id
            o.contact_email attrs.name (("N/A".toList)) (("N/A".toList)) }) ∧
    (∀ (oid : Str) (w : WorldB) (o : OrderB) (sb : SearchBodyB) (obj : SearchObjB)
        (u : UserEntry) (us : List UserEntry) (ssb : ServerBodyB) (so : ServerObjB)
        (attrs : ServerAttrs),
      oid ≠ [] →
      strTruthy w.apiKey = true → strTruthy w.panelUrl = true →
      w.orderError = false → w.order = some o →
      o.products.category = ("panel_pterodactyl".toList) →
      o.pterodactyl_server_id = [] →
      w.searchResp = .ok sb → sb.data = some obj → obj.data = some (u :: us) →
      w.createServerResp = .ok ssb → ssb.error = none →
      ssb.data = some so → so.attributes = some attrs →
      attrs.allocations = [] →
      (handlerB ("POST".toList) (some oid) w).1 = internalError undefinedReadMessage ∧
      ((handlerB ("POST".toList) (some oid) w).1).isSuccess = false ∧
      ((handlerB ("POST".toList) (some oid) w).2).dbUpdate = none ∧
      ((handlerB ("POST".toList) (some oid) w).2).email = none ∧
      ((handlerB ("POST".toList) (some oid) w).2).chat = none) := by
  refine ⟨rfl, ?_, ?_⟩
  · intro oid w st o cfg sr u us csr body attrs hoid hse hst hkey hurl hoe hord hcat hcfg
      hsid hsearch hdata hcs hcsok hbody hattrs halloc hchat
    obtain ⟨eff, heq, -⟩ := handlerA_reaches_finishA oid w st o cfg sr u us csr body attrs
      hoid hse hst hkey hurl hoe hord hcat hcfg hsid hsearch hdata hcs hcsok hbody hattrs
    rw [heq]
    refine ⟨finishA_fst_200 st o w attrs eff hchat, ?_⟩
    rw [finishA_email_eq st o w attrs eff, halloc]
    rfl
  · intro oid w o sb obj u us ssb so attrs hoid hkey hurl hoe hord hcat hsid hsearch hbd
      hobj hcs hserr hsdata hsattrs halloc
    obtain ⟨eff, heq, hdb, hem, hch⟩ := handlerB_empty_alloc oid w o sb obj u us ssb so attrs
      hoid hkey hurl hoe hord hcat hsid hsearch hbd hobj hcs hserr hsdata hsattrs halloc
    rw [heq]
    exact ⟨rfl, rfl, hdb, hem, hch⟩

/-- A provisionable panel order for the variant-A empty-allocation run. -/
def orderC8A : OrderA :=
  { id := ("31".toList), user_id := ("u4".toList), product_id := ("p4".toList),
    contact_email := ("g@h.com".toList), username := ("gil".toList),
    status := ("paid".toList), pterodactyl_server_id := [],
    products := { name := ("Panel L".toList), category := ("panel_pterodactyl".toList),
                  pterodactyl_configs := some cfgOk } }

/-- A created server with an empty allocation array. -/
def srvAttrsNoAlloc : ServerAttrs :=
  { uuid := ("uuid-2".toList), name := ("Server Y".toList), allocations := [] }

/-- The world of the variant-A empty-allocation run. -/
def worldC8A : WorldA :=
  { settingsError := false, settings := some stOk, orderError := false,
    order := some orderC8A,
    searchResp := .ok { ok := true, data := some [{ attributes := { id := 78 } }] },
    createUserResp := .ok { ok := true, body := none },
    password := ("pw123".toList),
    createServerResp := .ok { ok := true, body := some { attributes := some srvAttrsNoAlloc } },
    updateError := false, emailOutcome := .returns none none,
    botToken := none, chatIdEnv := none, chatResp := .ok () }

/-- A provisionable panel order for the variant-B empty-allocation run. -/
def orderC8B : OrderB :=
  { id := ("32".toList), user_id := ("u5".toList), product_id := ("p5".toList),
    contact_email := ("i@j.com".toList), username := ("ian".toList),
    status := ("paid".toList), pterodactyl_server_id := [],
    products := { name := ("Panel XL".toList), category := ("panel_pterodactyl".toList),
                  egg_id := 1, nest_id := 2, location_id := 3, memory := 2048, cpu := 200,
                  disk := 10240, swap := 0, io_limit := 500, databases := 2, allocations := 2,
                  backups := 2, startup_script := [], server_name_prefix := [] } }

/-- The world of the variant-B empty-allocation run. -/
def worldC8B : WorldB :=
  { apiKey := some ("key-1".toList), panelUrl := some ("https://panel.example".toList),
    orderError := false, order := some orderC8B,
    searchResp := .ok { data := some { data := some [{ attributes := { id := 79 } }] },
                        error := none },
    createUserResp := .ok { data := none, error := none },
    password := ("pw123".toList),
    createServerResp := .ok { data := some { attributes := some srvAttrsNoAlloc },
                              error := none },
    updateError := false, emailOutcome := .returns none none,
    botToken := none, chatIdEnv := none, chatResp := .ok () }

/-- Witness for C8 on both variants at the empty allocation array. -/
theorem empty_allocation_two_variants_witness :
    (handlerA ("POST".toList) (some ("31".toList)) worldC8A).1 = provisionedOk ∧
    ((handlerA ("POST".toList) (some ("31".toList)) worldC8A).2).email = some
      { «to» := orderC8A.contact_email,
        subject := ("Pesanan Anda Selesai: ".toList) ++ orderC8A.products.name ++
          (" - #".toList) ++ orderC8A.id,
        html := emailHtmlA stOk.pterodactyl_panel_url
          (orElseStr orderC8A.username ("Pelanggan".toList)) orderC8A.products.name
          orderC8A.id orderC8A.contact_email srvAttrsNoAlloc.name
          (("N/A".toList)) (("N/A".toList)) } ∧
    (handlerB ("POST".toList) (some ("32".toList)) worldC8B).1 =
      internalError undefinedReadMessage ∧
    ((handlerB ("POST".toList) (some ("32".toList)) worldC8B).2).dbUpdate = none := by
  obtain ⟨ha1, ha2⟩ := empty_allocation_two_variants.2.1 ("31".toList) worldC8A stOk orderC8A
    cfgOk { ok := true, data := some [{ attributes := { id := 78 } }] }
    { attributes := { id := 78 } } [] { ok := true, body := some { attributes := some srvAttrsNoAlloc } }
    { attributes := some srvAttrsNoAlloc } srvAttrsNoAlloc
    (by decide) rfl rfl (by decide) (by decide) rfl rfl rfl rfl rfl rfl rfl rfl rfl rfl rfl rfl rfl
  obtain ⟨hb1, hb2, hb3, hb4, hb5⟩ := empty_allocation_two_variants.2.2 ("32".toList) worldC8B
    orderC8B { data := some { data := some [{ attributes := { id := 79 } }] }, error := none }
    { data := some [{ attributes := { id := 79 } }] } { attributes := { id := 79 } } []
    { data := some { attributes := some srvAttrsNoAlloc }, error := none }
    { attributes := some srvAttrsNoAlloc } srvAttrsNoAlloc
    (by decide) (by decide) (by decide) rfl rfl rfl rfl rfl rfl rfl rfl rfl rfl rfl rfl
  exact ⟨ha1, ha2, hb1, hb3⟩

/- ### C9: the generated password influences only the user-creation payload -/

/-- Scrub the generated password out of a user-creation payload. -/
def scrubPassword (p : NewUserPayload) : NewUserPayload := { p with password := [] }

/-- The password-scrubbed view of a variant-A effects record. -/
def EffectsA.scrub (e : EffectsA) : EffectsA :=
  { e with createUserReq := e.createUserReq.map scrubPassword }

theorem pteroUserA_nonint (email uname : Str) (w₁ w₂ : WorldA)
    (hsr : w₁.searchResp = w₂.searchResp) (hcu : w₁.createUserResp = w₂.createUserResp) :
    (pteroUserA email uname w₁).1 = (pteroUserA email uname w₂).1 ∧
    ((pteroUserA email uname w₁).2).scrub = ((pteroUserA email uname w₂).2).scrub := by
  unfold pteroUserA
  rw [hsr, hcu]
  rcases hs2 : w₂.searchResp with sr | m
  · rcases hd : sr.data with _ | l
    · rcases hc2 : w₂.createUserResp with cr | m
      · rcases hb : cr.body with _ | b
        · simp [hs2, hd, hc2, hb, EffectsA.scrub, scrubPassword]
        · rcases hba : b.attributes with _ | ua
          · simp [hs2, hd, hc2, hb, hba, EffectsA.scrub, scrubPassword]
          · cases hok : cr.ok
            · simp [hs2, hd, hc2, hb, hba, hok, EffectsA.scrub, scrubPassword]
            · simp [hs2, hd, hc2, hb, hba, hok, EffectsA.scrub, scrubPassword]
      · simp [hs2, hd, hc2, EffectsA.scrub, scrubPassword]
    · rcases l with _ | ⟨u, us⟩
      · rcases hc2 : w₂.createUserResp with cr | m
        · rcases hb : cr.body with _ | b
          · simp [hs2, hd, hc2, hb, EffectsA.scrub, scrubPassword]
          · rcases hba : b.attributes with _ | ua
            · simp [hs2, hd, hc2, hb, hba, EffectsA.scrub, scrubPassword]
            · cases hok : cr.ok
              · simp [hs2, hd, hc2, hb, hba, hok, EffectsA.scrub, scrubPassword]
              · simp [hs2, hd, hc2, hb, hba, hok, EffectsA.scrub, scrubPassword]
        · simp [hs2, hd, hc2, EffectsA.scrub, scrubPassword]
      · simp [hs2, hd]
  · simp [hs2]

theorem finishA_world_congr (st : SettingsRow) (o : OrderA) (attrs : ServerAttrs)
    (e : EffectsA) (w₁ w₂ : WorldA) (hbt : w₁.botToken = w₂.botToken)
    (hcid : w₁.chatIdEnv = w₂.chatIdEnv) (hchr : w₁.chatResp = w₂.chatResp) :
    finishA st o w₁ attrs e = finishA st o w₂ attrs e := by
  unfold finishA
  rw [hbt, hcid, hchr]

theorem finishA_scrub_comm (st : SettingsRow) (o : OrderA) (w : WorldA) (attrs : ServerAttrs)
    (e : EffectsA) :
    ((finishA st o w attrs e).2).scrub = (finishA st o w attrs e.scrub).2 := by
  unfold finishA
  cases hcond : (strTruthy w.botToken && strTruthy w.chatIdEnv) with
  | false => simp [hcond, EffectsA.scrub]
  | true =>
    cases w.chatResp with
    | thrown m => simp [hcond, EffectsA.scrub]
    | ok v => simp [hcond, EffectsA.scrub]

theorem finishA_scrub_congr (st : SettingsRow) (o : OrderA) (w : WorldA) (attrs : ServerAttrs)
    {e₁ e₂ : EffectsA} (h : e₁.scrub = e₂.scrub) :
    ((finishA st o w attrs e₁).2).scrub = ((finishA st o w attrs e₂).2).scrub := by
  rw [finishA_scrub_comm, finishA_scrub_comm, h]

theorem scrub_csr_congr {e₁ e₂ : EffectsA} (h : e₁.scrub = e₂.scrub)
    (x : Option ServerPayloadA) :
    ({ e₁ with createServerReq := x } : EffectsA).scrub =
    ({ e₂ with createServerReq := x } : EffectsA).scrub := by
  have c1 : e₁.userSearch = e₂.userSearch := by
    have h' := congrArg EffectsA.userSearch h
    exact h'
  have c2 : e₁.createUserReq.map scrubPassword = e₂.createUserReq.map scrubPassword := by
    have h' := congrArg EffectsA.createUserReq h
    exact h'
  have c4 : e₁.dbUpdate = e₂.dbUpdate := by
    have h' := congrArg EffectsA.dbUpdate h
    exact h'
  have c5 : e₁.email = e₂.email := by
    have h' := congrArg EffectsA.email h
    exact h'
  have c6 : e₁.chat = e₂.chat := by
    have h' := congrArg EffectsA.chat h
    exact h'
  simp [EffectsA.scrub, c1, c2, c4, c5, c6]

theorem serverStageA_nonint (st : SettingsRow) (o : OrderA) (cfg : PteroConfig)
    (w₁ w₂ : WorldA) (uid : Nat) (e₁ e₂ : EffectsA)
    (hcs : w₁.createServerResp = w₂.createServerResp) (hbt : w₁.botToken = w₂.botToken)
    (hcid : w₁.chatIdEnv = w₂.chatIdEnv) (hchr : w₁.chatResp = w₂.chatResp)
    (he : e₁.scrub = e₂.scrub) :
    (serverStageA st o cfg w₁ uid e₁).1 = (serverStageA st o cfg w₂ uid e₂).1 ∧
    ((serverStageA st o cfg w₁ uid e₁).2).scrub = ((serverStageA st o cfg w₂ uid e₂).2).scrub := by
  unfold serverStageA
  rw [hcs]
  rcases hcs2 : w₂.createServerResp with sresp | m
  · rcases hsb : sresp.body with _ | b
    · exact ⟨by simp [hcs2, hsb], by simp only [hcs2, hsb]; exact scrub_csr_congr he _⟩
    · rcases hba : b.attributes with _ | attrs
      · exact ⟨by simp [hcs2, hsb, hba], by simp only [hcs2, hsb, hba]; exact scrub_csr_congr he _⟩
      · cases hok : sresp.ok with
        | false =>
          refine ⟨by simp [hcs2, hsb, hba, hok], ?_⟩
          simp only [hcs2, hsb, hba, hok, Bool.false_eq_true, if_false]
          exact scrub_csr_congr he _
        | true =>
          simp only [hcs2, hsb, hba, hok, if_true]
          constructor
          · rw [finishA_world_congr st o attrs _ w₁ w₂ hbt hcid hchr]
            exact finishA_fst_indep st o w₂ attrs _ _
          · rw [finishA_world_congr st o attrs _ w₁ w₂ hbt hcid hchr]
            exact finishA_scrub_congr st o w₂ attrs (scrub_csr_congr he _)
  · exact ⟨by simp [hcs2], by simp only [hcs2]; exact scrub_csr_congr he _⟩

theorem provisionA_nonint (st : SettingsRow) (o : OrderA) (cfg : PteroConfig)
    (w₁ w₂ : WorldA)
    (hsr : w₁.searchResp = w₂.searchResp) (hcu : w₁.createUserResp = w₂.createUserResp)
    (hcs : w₁.createServerResp = w₂.createServerResp) (hbt : w₁.botToken = w₂.botToken)
    (hcid : w₁.chatIdEnv = w₂.chatIdEnv) (hchr : w₁.chatResp = w₂.chatResp) :
    (provisionA st o cfg w₁).1 = (provisionA st o cfg w₂).1 ∧
    ((provisionA st o cfg w₁).2).scrub = ((provisionA st o cfg w₂).2).scrub := by
  obtain ⟨g1, g2⟩ := pteroUserA_nonint o.contact_email
    (orElseStr o.username (emailLocal o.contact_email)) w₁ w₂ hsr hcu
  unfold provisionA
  rcases hx : pteroUserA o.contact_email (orElseStr o.username (emailLocal o.contact_email)) w₁
    with ⟨r₁, e₁⟩
  rcases hy : pteroUserA o.contact_email (orElseStr o.username (emailLocal o.contact_email)) w₂
    with ⟨r₂, e₂⟩
  rw [hx, hy] at g1 g2
  replace g1 : r₁ = r₂ := g1
  replace g2 : e₁.scrub = e₂.scrub := g2
  subst g1
  simp only [hx, hy]
  rcases r₁ with r | uid
  · exact ⟨rfl, g2⟩
  · exact serverStageA_nonint st o cfg w₁ w₂ uid e₁ e₂ hcs hbt hcid hchr g2

theorem handlerGuardsA_congr (m : Str) (oid : Option Str) (w₁ w₂ : WorldA)
    (h1 : w₁.settingsError = w₂.settingsError) (h2 : w₁.settings = w₂.settings)
    (h3 : w₁.orderError = w₂.orderError) (h4 : w₁.order = w₂.order) :
    handlerGuardsA m oid w₁ = handlerGuardsA m oid w₂ := by
  unfold handlerGuardsA
  rw [h1, h2, h3, h4]

theorem handlerA_nonint (m : Str) (oid : Option Str) (w₁ w₂ : WorldA)
    (h1 : w₁.settingsError = w₂.settingsError) (h2 : w₁.settings = w₂.settings)
    (h3 : w₁.orderError = w₂.orderError) (h4 : w₁.order = w₂.order)
    (hsr : w₁.searchResp = w₂.searchResp) (hcu : w₁.createUserResp = w₂.createUserResp)
    (hcs : w₁.createServerResp = w₂.createServerResp) (hbt : w₁.botToken = w₂.botToken)
    (hcid : w₁.chatIdEnv = w₂.chatIdEnv) (hchr : w₁.chatResp = w₂.chatResp) :
    (handlerA m oid w₁).1 = (handlerA m oid w₂).1 ∧
    ((handlerA m oid w₁).2).scrub = ((handlerA m oid w₂).2).scrub := by
  unfold handlerA
  rw [handlerGuardsA_congr m oid w₁ w₂ h1 h2 h3 h4]
  rcases hg : handlerGuardsA m oid w₂ with r | ⟨st, o, cfg⟩
  · simp [hg]
  · simp only [hg]
    exact provisionA_nonint st o cfg w₁ w₂ hsr hcu hcs hbt hcid hchr

theorem pteroUserA_password (email uname : Str) (w : WorldA) (pay : NewUserPayload)
    (h : ((pteroUserA email uname w).2).createUserReq = some pay) :
    pay.password = w.password := by
  unfold pteroUserA at h
  rcases hs : w.searchResp with sr | m
  · rcases hd : sr.data with _ | l
    · rcases hc : w.createUserResp with cr | m
      · rcases hb : cr.body with _ | b
        · simp only [hs, hd, hc, hb, Option.some.injEq] at h
          exact ((congrArg NewUserPayload.password h).symm : _)
        · rcases hba : b.attributes with _ | ua
          · simp only [hs, hd, hc, hb, hba, Option.some.injEq] at h
            exact ((congrArg NewUserPayload.password h).symm : _)
          · cases hok : cr.ok with
            | false =>
              simp only [hs, hd, hc, hb, hba, hok, Bool.false_eq_true, if_false,
                Option.some.injEq] at h
              exact ((congrArg NewUserPayload.password h).symm : _)
            | true =>
              simp only [hs, hd, hc, hb, hba, hok, if_true, Option.some.injEq] at h
              exact ((congrArg NewUserPayload.password h).symm : _)
      · simp only [hs, hd, hc, Option.some.injEq] at h
        exact ((congrArg NewUserPayload.password h).symm : _)
    · rcases l with _ | ⟨u, us⟩
      · rcases hc : w.createUserResp with cr | m
        · rcases hb : cr.body with _ | b
          · simp only [hs, hd, hc, hb, Option.some.injEq] at h
            exact ((congrArg NewUserPayload.password h).symm : _)
          · rcases hba : b.attributes with _ | ua
            · simp only [hs, hd, hc, hb, hba, Option.some.injEq] at h
              exact ((congrArg NewUserPayload.password h).symm : _)
            · cases hok : cr.ok with
              | false =>
                simp only [hs, hd, hc, hb, hba, hok, Bool.false_eq_true, if_false,
                  Option.some.injEq] at h
                exact ((congrArg NewUserPayload.password h).symm : _)
              | true =>
                simp only [hs, hd, hc, hb, hba, hok, if_true, Option.some.injEq] at h
                exact ((congrArg NewUserPayload.password h).symm : _)
        · simp only [hs, hd, hc, Option.some.injEq] at h
          exact ((congrArg NewUserPayload.password h).symm : _)
      · simp [hs, hd] at h
  · simp [hs] at h

theorem serverStageA_createUserReq (st : SettingsRow) (o : OrderA) (cfg : PteroConfig)
    (w : WorldA) (uid : Nat) (e : EffectsA) :
    ((serverStageA st o cfg w uid e).2).createUserReq = e.createUserReq := by
  unfold serverStageA
  rcases hcs : w.createServerResp with sresp | m
  · rcases hsb : sresp.body with _ | b
    · simp [hcs, hsb]
    · rcases hba : b.attributes with _ | attrs
      · simp [hcs, hsb, hba]
      · cases hok : sresp.ok with
        | false => simp [hcs, hsb, hba, hok]
        | true =>
          simp only [hcs, hsb, hba, hok, if_true]
          rw [finishA_createUserReq]
  · simp [hcs]

theorem provisionA_password (st : SettingsRow) (o : OrderA) (cfg : PteroConfig)
    (w : WorldA) (pay : NewUserPayload)
    (h : ((provisionA st o cfg w).2).createUserReq = some pay) : pay.password = w.password := by
  unfold provisionA at h
  rcases hx : pteroUserA o.contact_email (orElseStr o.username (emailLocal o.contact_email)) w
    with ⟨r, e⟩
  simp only [hx] at h
  rcases r with r' | uid
  · refine pteroUserA_password o.contact_email
      (orElseStr o.username (emailLocal o.contact_email)) w pay ?_
    rw [hx]
    exact h
  · rw [serverStageA_createUserReq] at h
    refine pteroUserA_password o.contact_email
      (orElseStr o.username (emailLocal o.contact_email)) w pay ?_
    rw [hx]
    exact h

theorem handlerA_password (m : Str) (oid : Option Str) (w : WorldA) (pay : NewUserPayload)
    (h : ((handlerA m oid w).2).createUserReq = some pay) : pay.password = w.password := by
  unfold handlerA at h
  rcases hg : handlerGuardsA m oid w with r | ⟨st, o, cfg⟩
  · rw [hg] at h
    simp at h
  · rw [hg] at h
    exact provisionA_password st o cfg w pay h

/-- C9: the generated panel-user password is sent only in the user-creation
request and influences no other observable output: two runs differing only in
the password value produce the same HTTP response, database update, email,
chat payload, server-creation payload and user search, and identical
user-creation payloads up to the password field; and the password field of the
issued user-creation payload is exactly the generated value, which is stored
and returned nowhere else. -/
theorem password_noninterference :
    (∀ (method : Str) (order_id : Option Str) (w : WorldA) (p₁ p₂ : Str),
      (handlerA method order_id { w with password := p₁ }).1 =
        (handlerA method order_id { w with password := p₂ }).1 ∧
      ((handlerA method order_id { w with password := p₁ }).2).dbUpdate =
        ((handlerA method order_id { w with password := p₂ }).2).dbUpdate ∧
      ((handlerA method order_id { w with password := p₁ }).2).email =
        ((handlerA method order_id { w with password := p₂ }).2).email ∧
      ((handlerA method order_id { w with password := p₁ }).2).chat =
        ((handlerA method order_id { w with password := p₂ }).2).chat ∧
      ((handlerA method order_id { w with password := p₁ }).2).createServerReq =
        ((handlerA method order_id { w with password := p₂ }).2).createServerReq ∧
      ((handlerA method order_id { w with password := p₁ }).2).userSearch =
        ((handlerA method order_id { w with password := p₂ }).2).userSearch ∧
      ((handlerA method order_id { w with password := p₁ }).2).createUserReq.map scrubPassword =
        ((handlerA method order_id { w with password := p₂ }).2).createUserReq.map scrubPassword) ∧
    (∀ (method : Str) (order_id : Option Str) (w : WorldA) (pay : NewUserPayload),
      ((handlerA method order_id w).2).createUserReq = some pay → pay.password = w.password) := by
  constructor
  · intro method order_id w p₁ p₂
    obtain ⟨h1, h2⟩ := handlerA_nonint method order_id { w with password := p₁ }
      { w with password := p₂ } rfl rfl rfl rfl rfl rfl rfl rfl rfl rfl
    refine ⟨h1, ?_, ?_, ?_, ?_, ?_, ?_⟩
    · have h' := congrArg EffectsA.dbUpdate h2
      exact h'
    · have h' := congrArg EffectsA.email h2
      exact h'
    · have h' := congrArg EffectsA.chat h2
      exact h'
    · have h' := congrArg EffectsA.createServerReq h2
      exact h'
    · have h' := congrArg EffectsA.userSearch h2
      exact h'
    · have h' := congrArg EffectsA.createUserReq h2
      exact h'
  · exact handlerA_password

/-- An order whose fulfillment must create a new panel user. -/
def orderC9 : OrderA :=
  { id := ("41".toList), user_id := ("u6".toList), product_id := ("p6".toList),
    contact_email := ("k@l.com".toList), username := ("kim".toList),
    status := ("paid".toList), pterodactyl_server_id := [],
    products := { name := ("Panel K".toList), category := ("panel_pterodactyl".toList),
                  pterodactyl_configs := some cfgOk } }

/-- The world of the C9 witness run: the user search finds nobody, so the
user-creation call carries the generated password. -/
def worldC9 : WorldA :=
  { settingsError := false, settings := some stOk, orderError := false,
    order := some orderC9,
    searchResp := .ok { ok := true, data := some [] },
    createUserResp := .ok { ok := true, body := some { attributes := some { id := 80 } } },
    password := ("pw123".toList),
    createServerResp := .ok { ok := true, body := some { attributes := some srvAttrsC7 } },
    updateError := false, emailOutcome := .returns none none,
    botToken := none, chatIdEnv := none, chatResp := .ok () }

/-- The user-creation payload the C9 witness run issues. -/
def payC9 : NewUserPayload :=
  { email := ("k@l.com".toList), username := ("kim".toList), first_name := ("kim".toList),
    last_name := ("User".toList), password := ("pw123".toList) }

/-- Witness for C9: in a concrete run that creates a panel user, the payload's
password field is exactly the generated one. -/
theorem password_noninterference_witness :
    payC9.password = worldC9.password :=
  password_noninterference.2 ("POST".toList) (some ("41".toList)) worldC9 payC9 (by decide)

end Skull
